import Mathlib

/-!
# Verification of the FantasyFootballLineupTracker core

Shallow embedding of the lineup-tracker's domain model and core operations
(`src/lineup_tracker/...`), with theorems settling the specification claims.

Conventions:
* Wall-clock instants and durations are rationals (seconds); `datetime.now()`
  / `time.time()` become explicit `now` parameters.
* Python dictionaries become insertion-ordered association lists, mirroring
  dict iteration order ("last write wins" on duplicate keys).
* Raising an exception becomes returning `Except.error`.
-/

namespace LineupTracker

/-! ## Domain enums (`domain/enums.py`) -/

/-- Python `Position` in `domain/enums.py`. -/
inductive Position
  | goalkeeper
  | defender
  | midfielder
  | forward
deriving DecidableEq, Repr

/-- Python `PlayerStatus` in `domain/enums.py`: `ACTIVE = "Act"`, `RESERVE = "Res"`. -/
inductive PlayerStatus
  | active
  | reserve
deriving DecidableEq, Repr

/-- Python `MatchStatus` in `domain/enums.py`. -/
inductive MatchStatus
  | not_started
  | live
  | finished
  | postponed
  | cancelled
  | to_be_determined
deriving DecidableEq, Repr

/-- Python `AlertType` in `domain/enums.py`. -/
inductive AlertType
  | unexpected_benching
  | unexpected_starting
  | lineup_confirmed
deriving DecidableEq, Repr

/-- Python `AlertType.value` strings. -/
def AlertType.value : AlertType → String
  | .unexpected_benching => "unexpected_benching"
  | .unexpected_starting => "unexpected_starting"
  | .lineup_confirmed => "lineup_confirmed"

/-- Python `AlertUrgency` in `domain/enums.py`. -/
inductive AlertUrgency
  | urgent
  | important
  | info
  | warning
deriving DecidableEq, Repr

/-- Python `AlertUrgency.value` strings (note: singular `"warning"`). -/
def AlertUrgency.value : AlertUrgency → String
  | .urgent => "urgent"
  | .important => "important"
  | .info => "info"
  | .warning => "warning"

/-! ## Domain models (`domain/models.py`)

Fields not read by any verified operation (e.g. `fantasy_points`,
`average_points`, validation in `__post_init__`) are kept where cheap and
omitted where they would only add noise; `datetime` fields become rational
timestamps. -/

/-- Python `Team` in `domain/models.py`. -/
structure Team where
  name : String
  abbreviation : String
deriving DecidableEq, Repr

/-- Python `Player` in `domain/models.py` (optional Fantrax metadata kept as
`Option`; float statistics modelled as rationals). -/
structure Player where
  id : String
  name : String
  team : Team
  position : Position
  status : PlayerStatus
  fantasy_points : ℚ := 0
  average_points : ℚ := 0
  age : Option Nat := none
  opponent : Option String := none
  games_played : Option Nat := none
  draft_percentage : Option String := none
deriving DecidableEq, Repr

/-- Python `Player.is_active`: expected to start. -/
def Player.is_active (p : Player) : Bool := p.status == PlayerStatus.active

/-- Python `Match` in `domain/models.py`; `kickoff` is a timestamp in seconds. -/
structure Match where
  id : String
  home_team : Team
  away_team : Team
  kickoff : ℚ
  status : MatchStatus
deriving DecidableEq, Repr

/-- Python `Match.involves_team`. -/
def Match.involves_team (m : Match) (team_name : String) : Bool :=
  team_name == m.home_team.name || team_name == m.away_team.name

/-- Python `Lineup` in `domain/models.py` (the 11-player validation of
`__post_init__` is not needed by any claim). -/
structure Lineup where
  team : Team
  starting_eleven : List String
  substitutes : List String := []
deriving DecidableEq, Repr

/-- Python `Lineup.has_player_starting`: exact (case-sensitive) string membership. -/
def Lineup.has_player_starting (l : Lineup) (player_name : String) : Bool :=
  l.starting_eleven.contains player_name

/-- Python `Squad` in `domain/models.py`. -/
structure Squad where
  players : List Player
deriving DecidableEq, Repr

/-- Python `Alert` in `domain/models.py` (`extra_context` and `timestamp` are not
read by any verified operation and are omitted). -/
structure Alert where
  player : Player
  m : Match
  alert_type : AlertType
  urgency : AlertUrgency
  message : String
deriving DecidableEq, Repr

/-- Python `LineupDiscrepancy` in `domain/models.py`. -/
structure LineupDiscrepancy where
  player : Player
  m : Match
  expected_starting : Bool
  actually_starting : Bool
deriving DecidableEq, Repr

/-- Python `LineupDiscrepancy.discrepancy_type` (`domain/models.py` lines 206-214). -/
def LineupDiscrepancy.discrepancy_type (d : LineupDiscrepancy) : AlertType :=
  if d.expected_starting && !d.actually_starting then
    AlertType.unexpected_benching
  else if !d.expected_starting && d.actually_starting then
    AlertType.unexpected_starting
  else
    AlertType.lineup_confirmed

/-- The `urgency_map` of `LineupDiscrepancy.urgency` (`domain/models.py`
lines 219-223). -/
def urgencyMap : AlertType → AlertUrgency
  | .unexpected_benching => AlertUrgency.urgent
  | .unexpected_starting => AlertUrgency.important
  | .lineup_confirmed => AlertUrgency.info

/-- Python `LineupDiscrepancy.urgency` (`domain/models.py` lines 217-224). -/
def LineupDiscrepancy.urgency (d : LineupDiscrepancy) : AlertUrgency :=
  urgencyMap d.discrepancy_type

/-! ## Alert generator (`business/alert_generator.py`) -/

namespace AlertGenerator

/-- Template dictionary of `_initialize_alert_templates`, with the literal
placeholder segments; message text is filled by successive replacement,
mirroring Python `str.format`. -/
def alertTemplates : List (String × String) :=
  [("unexpected_benching",
    "🚨 **{player_name}** BENCHED! Team: {team_name} Position: {position} Match: {home_team} vs {away_team} Kickoff: {kickoff_time} Games Played: {games_played} ⚠️ You may want to update your lineup!"),
   ("unexpected_starting",
    "⚡ **{player_name}** STARTING! Team: {team_name} Position: {position} Match: {home_team} vs {away_team} Kickoff: {kickoff_time} Draft %: {draft_percentage}% 💡 Consider moving to starting XI!"),
   ("default",
    "📋 **{player_name}** Lineup Update Team: {team_name} Match: {home_team} vs {away_team} Kickoff: {kickoff_time}")]

/-- Python `Position.value` strings, used when filling templates. -/
def positionValue : Position → String
  | .goalkeeper => "Goalkeeper"
  | .defender => "Defender"
  | .midfielder => "Midfielder"
  | .forward => "Forward"

/-- Python `match.kickoff.strftime` is abstracted to a total decimal rendering of
the timestamp; no claim depends on the rendered text. -/
def renderKickoff (t : ℚ) : String := toString t

/-- Python `dict.get` with a fallback to the `"default"` template. -/
def templateFor (key : String) : String :=
  match alertTemplates.find? (fun kv => kv.1 == key) with
  | some kv => kv.2
  | none =>
      match alertTemplates.find? (fun kv => kv.1 == "default") with
      | some kv => kv.2
      | none => ""

/-- Python `_format_alert_message` (`business/alert_generator.py` lines 90-117). -/
def formatAlertMessage (d : LineupDiscrepancy) : String :=
  let player := d.player
  let m := d.m
  let template := templateFor d.discrepancy_type.value
  let opponent_team :=
    if player.team.name == m.home_team.name then m.away_team.name
    else m.home_team.name
  ((((((((template.replace "{player_name}" player.name).replace
      "{team_name}" player.team.name).replace
      "{position}" (positionValue player.position)).replace
      "{home_team}" m.home_team.name).replace
      "{away_team}" m.away_team.name).replace
      "{opponent}" opponent_team).replace
      "{kickoff_time}" (renderKickoff m.kickoff)).replace
      "{games_played}" (match player.games_played with
        | some n => toString n
        | none => "N/A")).replace
      "{draft_percentage}" (match player.draft_percentage with
        | some s => s
        | none => "N/A")

/-- Python `_format_confirmation_message` (`business/alert_generator.py`
lines 119-131). -/
def formatConfirmationMessage (d : LineupDiscrepancy) : String :=
  let player := d.player
  let m := d.m
  if d.expected_starting && d.actually_starting then
    let opponent :=
      if player.team.name == m.home_team.name then m.away_team.name
      else m.home_team.name
    "✅ " ++ player.name ++ " confirmed starting for " ++ player.team.name ++
      " vs " ++ opponent
  else
    "✅ " ++ player.name ++ " lineup status as expected (" ++
      player.team.name ++ ")"

/-- Python `_create_alert_from_discrepancy` (`business/alert_generator.py`
lines 58-74). -/
def createAlertFromDiscrepancy (d : LineupDiscrepancy) : Alert :=
  { player := d.player
    m := d.m
    alert_type := d.discrepancy_type
    urgency := d.urgency
    message := formatAlertMessage d }

/-- Python `_create_confirmation_alert` (`business/alert_generator.py`
lines 76-88). -/
def createConfirmationAlert (d : LineupDiscrepancy) : Alert :=
  { player := d.player
    m := d.m
    alert_type := AlertType.lineup_confirmed
    urgency := AlertUrgency.info
    message := formatConfirmationMessage d }

/-- Python `generate_alerts` (`business/alert_generator.py` lines 29-56). -/
def generateAlerts (discrepancies : List LineupDiscrepancy) : List Alert :=
  discrepancies.map fun d =>
    if d.discrepancy_type != AlertType.lineup_confirmed then
      createAlertFromDiscrepancy d
    else
      createConfirmationAlert d

end AlertGenerator

/-! ## Python dicts as insertion-ordered association lists -/

/-- Python `d[k]` / `d.get(k)`: first (and, for dicts, only) binding of `k`. -/
def dictFind {β : Type} (l : List (String × β)) (k : String) : Option β :=
  (l.find? fun kv => kv.1 == k).map (fun kv => kv.2)

/-- Python `d[k] = v`: replace in place if present, else append (dict semantics). -/
def dictSet {β : Type} : List (String × β) → String → β → List (String × β)
  | [], k, v => [(k, v)]
  | kv :: rest, k, v =>
      if kv.1 == k then (k, v) :: rest else kv :: dictSet rest k v

/-- Python `del d[k]`. -/
def dictDel {β : Type} (l : List (String × β)) (k : String) :
    List (String × β) :=
  l.filter fun kv => kv.1 != k

/-! ## Lineup analyzer (`business/lineup_analyzer.py`) -/

namespace LineupAnalyzer

/-- Python `_get_players_for_match` (`business/lineup_analyzer.py` lines 71-83):
squad players whose team name is one of the match's two team names. -/
def getPlayersForMatch (m : Match) (squad : Squad) : List Player :=
  squad.players.filter fun p =>
    p.team.name == m.home_team.name || p.team.name == m.away_team.name

/-- The mapping built by `_build_starting_players_lookup`
(`business/lineup_analyzer.py` lines 85-94): starting set keyed by team
name, the last lineup with a given team name winning (dict overwrite); a
missing team maps to the empty set (the `.get(..., set())` default in
`_analyze_player_lineup_status`). -/
def startingPlayersLookup (lineups : List Lineup) (team_name : String) :
    List String :=
  match (lineups.filter fun l => l.team.name == team_name).getLast? with
  | some l => l.starting_eleven
  | none => []

/-- Python `_analyze_player_lineup_status` (`business/lineup_analyzer.py`
lines 96-131): always returns a discrepancy record; `actually_starting`
is exact case-sensitive string membership in the team's starting set. -/
def analyzePlayerLineupStatus (p : Player) (m : Match)
    (starting_players_by_team : String → List String) : LineupDiscrepancy :=
  { player := p
    m := m
    expected_starting := p.status == PlayerStatus.active
    actually_starting := (starting_players_by_team p.team.name).contains p.name }

/-- Python `analyze_match_lineups` (`business/lineup_analyzer.py` lines 29-69):
one discrepancy per relevant squad player.  (The `_last_analysis_time`
bookkeeping does not affect the returned list and is omitted.) -/
def analyzeMatchLineups (m : Match) (lineups : List Lineup) (squad : Squad) :
    List LineupDiscrepancy :=
  (getPlayersForMatch m squad).map fun p =>
    analyzePlayerLineupStatus p m (startingPlayersLookup lineups)

end LineupAnalyzer

/-! ## TTL cache (`utils/cache.py`) -/

namespace Cache

/-- Python `CacheEntry` (`utils/cache.py` lines 25-41). -/
structure CacheEntry (α : Type) where
  value : α
  created_at : ℚ
  expires_at : ℚ
  access_count : Nat := 0
  last_accessed : ℚ
deriving DecidableEq, Repr

/-- Python `CacheEntry.is_expired`: `time.time() >= self.expires_at`. -/
def CacheEntry.is_expired {α : Type} (e : CacheEntry α) (now : ℚ) : Bool :=
  now ≥ e.expires_at

/-- Python `CacheEntry.touch`. -/
def CacheEntry.touch {α : Type} (e : CacheEntry α) (now : ℚ) : CacheEntry α :=
  { e with access_count := e.access_count + 1, last_accessed := now }

/-- Python `TTLCache` state (`utils/cache.py` lines 44-69); the background cleanup
task and the asyncio lock are outside the sequential model. -/
structure TTLCache (α : Type) where
  entries : List (String × CacheEntry α)
  max_size : Nat
  hits : Nat := 0
  misses : Nat := 0
  evictions : Nat := 0
deriving DecidableEq, Repr

/-- Python `TTLCache.get` (`utils/cache.py` lines 99-113): hit only on an
unexpired entry (touching it); an expired entry is deleted and counts as a
miss. -/
def get {α : Type} (c : TTLCache α) (now : ℚ) (key : String) :
    Option α × TTLCache α :=
  match dictFind c.entries key with
  | some entry =>
      if !entry.is_expired now then
        (some entry.value,
         { c with entries := dictSet c.entries key (entry.touch now),
                  hits := c.hits + 1 })
      else
        (none,
         { c with entries := dictDel c.entries key,
                  misses := c.misses + 1 })
  | none => (none, { c with misses := c.misses + 1 })

/-- The `min(keys, key=lambda k: last_accessed)` of `_evict_lru`: Python's
`min` keeps the current best and replaces it only on a strictly smaller
key, so the first minimal element in iteration order wins. -/
def lruPair {α : Type} : List (String × CacheEntry α) →
    Option (String × CacheEntry α)
  | [] => none
  | e :: rest =>
      some (rest.foldl
        (fun best x =>
          if x.2.last_accessed < best.2.last_accessed then x else best) e)

/-- Python `_evict_lru` (`utils/cache.py` lines 130-143). -/
def evictLru {α : Type} (c : TTLCache α) : TTLCache α :=
  match lruPair c.entries with
  | none => c
  | some p =>
      { c with entries := dictDel c.entries p.1,
               evictions := c.evictions + 1 }

/-- Python `TTLCache.set` (`utils/cache.py` lines 115-128): evict the LRU entry
first when at capacity and the key is new, then store a fresh entry with
`expires_at = now + ttl`. -/
def set {α : Type} (c : TTLCache α) (now : ℚ) (key : String) (value : α)
    (ttl : ℚ) : TTLCache α :=
  let c' :=
    if c.max_size ≤ c.entries.length ∧ (dictFind c.entries key).isNone = true
    then evictLru c
    else c
  { c' with
      entries :=
        dictSet c'.entries key
          { value := value, created_at := now, expires_at := now + ttl,
            last_accessed := now } }

end Cache

/-! ## Circuit breaker and retry (`utils/retry.py`) -/

namespace Retry

/-- Python `CircuitBreakerState` (`utils/retry.py` lines 56-60); `OPEN` is spelled
`opened` because `open` is a Lean keyword. -/
inductive CircuitBreakerState
  | closed
  | opened
  | half_open
deriving DecidableEq, Repr

/-- Python `CircuitBreakerConfig` (`utils/retry.py` lines 63-69). -/
structure CircuitBreakerConfig where
  failure_threshold : Nat := 5
  recovery_timeout : ℚ := 60
  success_threshold : Nat := 3
  timeout : ℚ := 30
deriving DecidableEq, Repr

/-- The mutable state of `CircuitBreaker` (`utils/retry.py` lines 80-86). -/
structure CircuitBreaker where
  config : CircuitBreakerConfig
  state : CircuitBreakerState := .closed
  failure_count : Nat := 0
  success_count : Nat := 0
  last_failure_time : Option ℚ := none
  last_attempt_time : Option ℚ := none
deriving DecidableEq, Repr

/-- Python `_should_attempt` (`utils/retry.py` lines 132-152): decides whether the
call may proceed, transitioning open → half-open when the recovery timeout
has elapsed since the last failure. -/
def shouldAttempt (cb : CircuitBreaker) (now : ℚ) : Bool × CircuitBreaker :=
  let cb' := { cb with last_attempt_time := some now }
  match cb'.state with
  | .closed => (true, cb')
  | .opened =>
      match cb'.last_failure_time with
      | some t =>
          if now - t ≥ cb'.config.recovery_timeout then
            (true, { cb' with state := .half_open, success_count := 0 })
          else (false, cb')
      | none => (false, cb')
  | .half_open => (true, cb')

/-- Python `_record_success` (`utils/retry.py` lines 154-163). -/
def recordSuccess (cb : CircuitBreaker) : CircuitBreaker :=
  match cb.state with
  | .half_open =>
      let sc := cb.success_count + 1
      if sc ≥ cb.config.success_threshold then
        { cb with success_count := sc, state := .closed, failure_count := 0 }
      else
        { cb with success_count := sc }
  | .closed => { cb with failure_count := 0 }
  | .opened => cb

/-- Python `_record_failure` (`utils/retry.py` lines 165-176). -/
def recordFailure (cb : CircuitBreaker) (now : ℚ) : CircuitBreaker :=
  let cb' := { cb with failure_count := cb.failure_count + 1,
                       last_failure_time := some now }
  match cb'.state with
  | .closed =>
      if cb'.failure_count ≥ cb'.config.failure_threshold then
        { cb' with state := .opened }
      else cb'
  | .half_open => { cb' with state := .opened }
  | .opened => cb'

/-- Result of one circuit-breaker-wrapped call. -/
inductive CBResult (ε α : Type)
  | ok (a : α)
  | circuitOpen
  | opFailed (e : ε)
deriving DecidableEq, Repr

/-- Python `_execute_sync` (`utils/retry.py` lines 118-130): fail fast with
`CircuitBreakerOpenError` when `_should_attempt` refuses; otherwise run the
operation, record success/failure and return/re-raise.  The operation's
outcome is passed as a value; the `Bool` in the result records whether the
wrapped operation was invoked at all. -/
def executeSync {ε α : Type} (cb : CircuitBreaker) (now : ℚ)
    (op : Except ε α) : CBResult ε α × Bool × CircuitBreaker :=
  match shouldAttempt cb now with
  | (false, cb1) => (.circuitOpen, false, cb1)
  | (true, cb1) =>
      match op with
      | .ok a => (.ok a, true, recordSuccess cb1)
      | .error e => (.opFailed e, true, recordFailure cb1 now)

/-- Python `n` consecutive `_record_failure` calls (all at time `now`; the time
only affects `last_failure_time`, not the transition structure). -/
def recordFailures (cb : CircuitBreaker) (now : ℚ) : Nat → CircuitBreaker
  | 0 => cb
  | n + 1 => recordFailures (recordFailure cb now) now n

/-- Python `n` consecutive `_record_success` calls. -/
def recordSuccesses (cb : CircuitBreaker) : Nat → CircuitBreaker
  | 0 => cb
  | n + 1 => recordSuccesses (recordSuccess cb) n

/-- How one sync retry-wrapped call ends (`utils/retry.py` lines 304-343):
a returned value, the original non-retriable exception re-raised unchanged,
or a distinct `RetryExhaustedError` carrying the attempt count and the last
underlying exception (`None` only when the loop never ran). -/
inductive RetryResult (ε α : Type)
  | ok (a : α)
  | raised (e : ε)
  | exhausted (attempts : Nat) (last : Option ε)
deriving DecidableEq, Repr

/-- Python `should_retry` (`utils/retry.py` lines 208-220), with the `isinstance`
class tests against the three configured exception tuples given as boolean
predicates on the error value. -/
def shouldRetryWith {ε : Type} (exceptions : ε → Bool)
    (retriable_exceptions : Option (ε → Bool))
    (non_retriable_exceptions : Option (ε → Bool)) (e : ε) : Bool :=
  if (match non_retriable_exceptions with
      | some p => p e
      | none => false) then false
  else
    match retriable_exceptions with
    | some p => p e
    | none => exceptions e

/-- The `for attempt in range(1, max_attempts + 1)` loop of `sync_wrapper`
(`utils/retry.py` lines 304-343).  `op i` is the operation's outcome on its
`i`-th invocation; `should_retry` is the configured retriability predicate.
The result is paired with the number of invocations performed.  `fuel`
bounds the recursion and is started at `max_attempts` (one unit per loop
iteration); the `0`/guard branches are the post-loop
`raise RetryExhaustedError(max_attempts, last_exception)`. -/
def retryLoop {ε α : Type} (should_retry : ε → Bool) (max_attempts : Nat)
    (op : Nat → Except ε α) :
    Nat → Nat → Option ε → RetryResult ε α × Nat
  | 0, attempt, last => (.exhausted max_attempts last, attempt - 1)
  | fuel + 1, attempt, last =>
      if attempt > max_attempts then (.exhausted max_attempts last, attempt - 1)
      else
        match op attempt with
        | .ok a => (.ok a, attempt)
        | .error e =>
            if should_retry e then
              if attempt = max_attempts then
                (.exhausted max_attempts (some e), attempt)
              else
                retryLoop should_retry max_attempts op fuel (attempt + 1)
                  (some e)
            else (.raised e, attempt)

/-- One call through the sync retry wrapper produced by the `retry`
decorator (`utils/retry.py` lines 260-347). -/
def retryRun {ε α : Type} (should_retry : ε → Bool) (max_attempts : Nat)
    (op : Nat → Except ε α) : RetryResult ε α × Nat :=
  retryLoop should_retry max_attempts op max_attempts 1 none

end Retry

/-! ## Async Sofascore client (`providers/async_sofascore_client.py`) -/

namespace SofaClient

/-- Python `RateLimiter` (`providers/async_sofascore_client.py` lines 29-58);
`requests_per_minute` and `bucket_size` are integers in the source but
enter only rational arithmetic. -/
structure RateLimiter where
  requests_per_minute : ℚ
  bucket_size : ℚ
  tokens : ℚ
  last_update : ℚ
deriving DecidableEq, Repr

/-- Python `RateLimiter.acquire` (lines 41-58): refill by elapsed time, cap at the
bucket size; with less than one token, sleep `(1 − tokens)·(60/rpm)` and
zero the bucket, otherwise debit one token and return at once.  The first
component is the duration of the `asyncio.sleep` performed (0 when none);
the function is total — it never raises. -/
def RateLimiter.acquire (rl : RateLimiter) (now : ℚ) : ℚ × RateLimiter :=
  let time_passed := now - rl.last_update
  let tokens_to_add := time_passed * (rl.requests_per_minute / 60)
  let tokens := min rl.bucket_size (rl.tokens + tokens_to_add)
  if tokens < 1 then
    let wait_time := (1 - tokens) * (60 / rl.requests_per_minute)
    (wait_time, { rl with tokens := 0, last_update := now })
  else
    (0, { rl with tokens := tokens - 1, last_update := now })

/-- The possible upstream outcomes of one `_fetch_lineup_from_api` call
(lines 646-674), from the client's point of view. -/
inductive UpstreamLineupOutcome (δ ε : Type)
  | published (d : δ)
  | notFound404
  | missingSide
  | failure (e : ε)
deriving DecidableEq, Repr

/-- Python `_fetch_lineup_from_api` (lines 646-674): an exception whose text
contains "404"/"not found" and an absent home or away lineup both return
`None`; any other exception re-raises. -/
def fetchLineupFromApi {δ ε : Type} :
    UpstreamLineupOutcome δ ε → Except ε (Option δ)
  | .published d => Except.ok (some d)
  | .notFound404 => Except.ok none
  | .missingSide => Except.ok none
  | .failure e => Except.error e

/-- The body of `get_lineup` (lines 200-270) after the API fetch: absent
lineup data returns `None` (the explicit "not yet published" result), and
the outer handler maps a 404 `ClientResponseError` to `None` as well;
payload conversion and the home/away pick of `_convert_lineup_data` are
abstracted by `convert` (which may itself yield `none` when neither side
is present). -/
def getLineupOnce {δ ε : Type} (convert : δ → Option Lineup)
    (resp : UpstreamLineupOutcome δ ε) : Except ε (Option Lineup) :=
  match fetchLineupFromApi resp with
  | Except.ok none => Except.ok none
  | Except.ok (some d) => Except.ok (convert d)
  | Except.error e => Except.error e

end SofaClient

/-! ## Notification service (`services/notification_service.py`) -/

namespace Notification

/-- Substring test on character lists (`needle in haystack` in Python). -/
def listContainsSub (needle : List Char) : List Char → Bool
  | [] => needle.isEmpty
  | c :: rest => needle.isPrefixOf (c :: rest) || listContainsSub needle rest

/-- Python `"discord" in name.lower()` (lines 225-227). -/
def isDiscordName (name : String) : Bool :=
  listContainsSub "discord".toList name.toLower.toList

/-- The outcome of one provider's `send_alert(alert)` call: returned
`True`, returned `False`, or raised. -/
inductive SendOutcome
  | success
  | returnedFalse
  | raisedException
deriving DecidableEq, Repr

/-- One configured notification provider, with its name and the behaviour
of its `send_alert` for the alert under consideration. -/
structure Provider where
  provider_name : String
  send_alert_outcome : SendOutcome
deriving DecidableEq, Repr

/-- Python `_get_providers_for_urgency` (lines 219-227): urgent/important
broadcast to every configured provider; info/warning go only to providers
whose lowercased name contains "discord". -/
def providersForUrgency (names : List String) (urgency : AlertUrgency) :
    List String :=
  if urgency = AlertUrgency.urgent ∨ urgency = AlertUrgency.important then
    names
  else
    names.filter fun n => isDiscordName n

/-- One iteration of the provider loop of `send_alert` (lines 62-83),
updating `(success_count, total_attempts)`: a name missing from the
provider dict is skipped (`continue`), a provider returning `True` counts
as a success, and one returning `False` or raising is caught, logged and
counted as a failed attempt — never propagated. -/
def sendStep (providers : List Provider) (acc : Nat × Nat) (nm : String) :
    Nat × Nat :=
  match providers.find? (fun p => p.provider_name == nm) with
  | none => acc
  | some p =>
      match p.send_alert_outcome with
      | .success => (acc.1 + 1, acc.2 + 1)
      | .returnedFalse => (acc.1, acc.2 + 1)
      | .raisedException => (acc.1, acc.2 + 1)

/-- The provider loop of `send_alert`, accumulating
`(success_count, total_attempts)` from zero. -/
def sendAlertLoop (providers : List Provider) (targets : List String) :
    Nat × Nat :=
  targets.foldl (sendStep providers) (0, 0)

/-- The dict lookup of the loop succeeds for this target name. -/
def providerFound (providers : List Provider) (nm : String) : Bool :=
  (providers.find? (fun p => p.provider_name == nm)).isSome

/-- The provider looked up for this target name reports success. -/
def providerSucceeded (providers : List Provider) (nm : String) : Bool :=
  match providers.find? (fun p => p.provider_name == nm) with
  | some p => p.send_alert_outcome == SendOutcome.success
  | none => false

/-- Python `send_alert` (lines 40-102): choose targets by urgency, return `False`
with zero attempts when none, else attempt each target and succeed overall
iff at least one provider succeeded.  Result:
`(overall_success, success_count, total_attempts)`. -/
def sendAlert (providers : List Provider) (urgency : AlertUrgency) :
    Bool × Nat × Nat :=
  let targets :=
    providersForUrgency (providers.map fun p => p.provider_name) urgency
  if targets.isEmpty then (false, 0, 0)
  else
    let st := sendAlertLoop providers targets
    (decide (0 < st.1), st.1, st.2)

end Notification

/-! ## Async monitoring service
(`services/async_lineup_monitoring_service.py`) -/

namespace Monitoring

/-- Python `MatchMonitoringInfo` (lines 43-51). -/
structure MatchMonitoringInfo where
  m : Match
  squad_players : List String
  last_lineup_check : Option ℚ := none
  lineup_found : Bool := false
  alerts_sent : Nat := 0
  priority : Nat := 1
deriving DecidableEq, Repr

/-- Python `_calculate_match_priority` (lines 405-420); the source reads
`match.start_time`, modelled as the kickoff timestamp; thresholds are 15
minutes, 1 hour, 6 hours and 24 hours. -/
def calculateMatchPriority (now : ℚ) (m : Match) : Nat :=
  let time_until_match := m.kickoff - now
  if time_until_match ≤ 15 * 60 then 1
  else if time_until_match ≤ 3600 then 2
  else if time_until_match ≤ 6 * 3600 then 3
  else if time_until_match ≤ 24 * 3600 then 4
  else 5

/-- The per-match body of the first loop of `_update_monitored_matches`
(lines 237-248): create a `MatchMonitoringInfo` — with its priority
computed from the current time — only when the match id is not yet
monitored; an existing entry is left completely untouched. -/
def monitorStep (now : ℚ) (squad_player_names : List String)
    (acc : List (String × MatchMonitoringInfo)) (mt : Match) :
    List (String × MatchMonitoringInfo) :=
  if (dictFind acc mt.id).isSome then acc
  else
    dictSet acc mt.id
      { m := mt
        squad_players := squad_player_names
        priority := calculateMatchPriority now mt }

/-- Python `_update_monitored_matches` (lines 229-256): add entries for
newly-relevant matches, then drop entries whose match id is no longer in
the fixture list. -/
def updateMonitoredMatches (now : ℚ) (squad_player_names : List String)
    (monitored : List (String × MatchMonitoringInfo))
    (fixtures : List Match) : List (String × MatchMonitoringInfo) :=
  let withNew :=
    fixtures.foldl (monitorStep now squad_player_names) monitored
  withNew.filter fun kv => fixtures.any fun mt => mt.id == kv.1

end Monitoring

/-! ## Alert summary (`business/alert_generator.py` lines 222-247) -/

namespace AlertGenerator

/-- The initial `summary` dict of `get_alert_summary`, in insertion order;
note the urgency keys are `"urgent"`, `"important"`, `"info"` and the
plural `"warnings"`. -/
def initialSummary (alerts : List Alert) : List (String × Nat) :=
  [("total_alerts", alerts.length), ("urgent", 0), ("important", 0),
   ("info", 0), ("warnings", 0), ("benchings", 0), ("unexpected_starts", 0),
   ("confirmations", 0)]

/-- Python `summary[key] += 1`: `KeyError(key)` when the key is absent. -/
def dictBump : List (String × Nat) → String → Except String (List (String × Nat))
  | [], k => Except.error k
  | kv :: rest, k =>
      if kv.1 == k then Except.ok ((kv.1, kv.2 + 1) :: rest)
      else
        match dictBump rest k with
        | Except.ok r => Except.ok (kv :: r)
        | Except.error err => Except.error err

/-- The per-type counter key used by the `if`/`elif` chain of
`get_alert_summary`; every `AlertType` hits exactly one branch. -/
def typeCountKey : AlertType → String
  | .unexpected_benching => "benchings"
  | .unexpected_starting => "unexpected_starts"
  | .lineup_confirmed => "confirmations"

/-- The `for alert in alerts` loop of `get_alert_summary`: bump the
counter keyed by `alert.urgency.value`, then the per-type counter. -/
def getAlertSummaryAux :
    List (String × Nat) → List Alert → Except String (List (String × Nat))
  | s, [] => Except.ok s
  | s, a :: rest =>
      match dictBump s a.urgency.value with
      | Except.error e => Except.error e
      | Except.ok s1 =>
          match dictBump s1 (typeCountKey a.alert_type) with
          | Except.error e => Except.error e
          | Except.ok s2 => getAlertSummaryAux s2 rest

/-- Python `get_alert_summary` (lines 222-247). -/
def getAlertSummary (alerts : List Alert) :
    Except String (List (String × Nat)) :=
  getAlertSummaryAux (initialSummary alerts) alerts

/-- A summary dict with the fixed key set of `get_alert_summary` and the
given counter values (in insertion order). -/
def mkSummary (t u i f w b s c : Nat) : List (String × Nat) :=
  [("total_alerts", t), ("urgent", u), ("important", i), ("info", f),
   ("warnings", w), ("benchings", b), ("unexpected_starts", s),
   ("confirmations", c)]

end AlertGenerator

/-! ## Concrete sample data (used by witnesses and counterexamples) -/

def teamA : Team := ⟨"Arsenal", "ARS"⟩

def teamB : Team := ⟨"Chelsea", "CHE"⟩

def teamC : Team := ⟨"Leeds", "LEE"⟩

def playerP : Player :=
  { id := "p1", name := "Saka", team := teamA,
    position := Position.forward, status := PlayerStatus.active }

def playerQ : Player :=
  { id := "p2", name := "Palmer", team := teamB,
    position := Position.midfielder, status := PlayerStatus.reserve }

def playerR : Player :=
  { id := "p3", name := "James", team := teamC,
    position := Position.defender, status := PlayerStatus.active }

def sampleMatch : Match :=
  { id := "m1", home_team := teamA, away_team := teamB, kickoff := 100000,
    status := MatchStatus.not_started }

def sampleLineupA : Lineup := { team := teamA, starting_eleven := ["Saka"] }

def sampleSquad : Squad := ⟨[playerP, playerQ, playerR]⟩

def sampleCache : Cache.TTLCache Nat :=
  { entries :=
      [("a", { value := 1, created_at := 0, expires_at := 100,
               last_accessed := 5 }),
       ("b", { value := 2, created_at := 0, expires_at := 100,
               last_accessed := 3 })]
    max_size := 2 }

def alertUrgent : Alert :=
  { player := playerP, m := sampleMatch,
    alert_type := AlertType.unexpected_benching,
    urgency := AlertUrgency.urgent, message := "benched" }

def alertInfo : Alert :=
  { player := playerQ, m := sampleMatch,
    alert_type := AlertType.lineup_confirmed,
    urgency := AlertUrgency.info, message := "confirmed" }

def alertWarning : Alert :=
  { player := playerR, m := sampleMatch,
    alert_type := AlertType.lineup_confirmed,
    urgency := AlertUrgency.warning, message := "warn" }

end LineupTracker

namespace LineupTracker

/-! ## Dictionary lemmas -/

theorem dictFind_dictSet_self {β : Type} (l : List (String × β)) (k : String)
    (v : β) : dictFind (dictSet l k v) k = some v := by
  induction l with
  | nil => simp [dictFind, dictSet, List.find?]
  | cons kv rest ih =>
      by_cases h : kv.1 = k
      · simp [dictSet, h, dictFind, List.find?]
      · have hb : (kv.1 == k) = false := beq_false_of_ne h
        simp only [dictSet, hb, if_false]
        simpa [dictFind, List.find?, hb] using ih

theorem dictFind_dictSet_ne {β : Type} (l : List (String × β))
    (k k' : String) (v : β) (h : k' ≠ k) :
    dictFind (dictSet l k' v) k = dictFind l k := by
  induction l with
  | nil => simp [dictFind, dictSet, List.find?, beq_false_of_ne h]
  | cons kv rest ih =>
      by_cases hk : kv.1 = k'
      · have hb : (kv.1 == k') = true := beq_iff_eq.mpr hk
        have hkk : (kv.1 == k) = false := by
          apply beq_false_of_ne; rw [hk]; exact h
        simp [dictSet, hb, dictFind, List.find?, beq_false_of_ne h, hkk]
      · have hb : (kv.1 == k') = false := beq_false_of_ne hk
        simp only [dictSet, hb, if_false]
        by_cases hkk : kv.1 = k
        · simp [dictFind, List.find?, beq_iff_eq.mpr hkk]
        · simpa [dictFind, List.find?, beq_false_of_ne hkk] using ih

/-! ## Claim C1 -/

/-- C1.  The discrepancy classification is a pure function of the pair
`(expectedStarting, actuallyStarting)`: `(true, false)` yields
benched-unexpectedly, `(false, true)` yields started-unexpectedly, and the
two agreeing pairs yield as-expected; the alert built from a discrepancy by
`_create_alert_from_discrepancy` carries urgency `urgent` for
benched-unexpectedly, `important` for started-unexpectedly, and `info` for
as-expected. -/
theorem discrepancy_classification_pure_and_alert_urgency
    (p : Player) (m : Match) :
    (LineupDiscrepancy.discrepancy_type ⟨p, m, true, false⟩ =
        AlertType.unexpected_benching) ∧
    (LineupDiscrepancy.discrepancy_type ⟨p, m, false, true⟩ =
        AlertType.unexpected_starting) ∧
    (LineupDiscrepancy.discrepancy_type ⟨p, m, true, true⟩ =
        AlertType.lineup_confirmed) ∧
    (LineupDiscrepancy.discrepancy_type ⟨p, m, false, false⟩ =
        AlertType.lineup_confirmed) ∧
    (∀ e a : Bool,
      (AlertGenerator.createAlertFromDiscrepancy ⟨p, m, e, a⟩).urgency =
        urgencyMap (LineupDiscrepancy.discrepancy_type ⟨p, m, e, a⟩)) ∧
    (AlertGenerator.createAlertFromDiscrepancy ⟨p, m, true, false⟩).urgency =
        AlertUrgency.urgent ∧
    (AlertGenerator.createAlertFromDiscrepancy ⟨p, m, false, true⟩).urgency =
        AlertUrgency.important ∧
    (AlertGenerator.createAlertFromDiscrepancy ⟨p, m, true, true⟩).urgency =
        AlertUrgency.info ∧
    (AlertGenerator.createAlertFromDiscrepancy ⟨p, m, false, false⟩).urgency =
        AlertUrgency.info := by
  refine ⟨rfl, rfl, rfl, rfl, ?_, rfl, rfl, rfl, rfl⟩
  intro e a
  cases e <;> cases a <;> rfl

/-! ## Claim C6 -/

/-- C6.  The analyzer returns exactly one discrepancy per roster player
whose team name equals the match's home or away team name (in roster
order), and none for any other player; a player counts as actually
starting iff the player's name is an exact, case-sensitive member of that
team's starting set; and the analyzer is deterministic, so running it
twice on the same inputs yields identical results. -/
theorem analyzer_one_discrepancy_per_relevant_player
    (m : Match) (lineups : List Lineup) (squad : Squad) :
    ((LineupAnalyzer.analyzeMatchLineups m lineups squad).map
        (fun d => d.player) =
      squad.players.filter fun p =>
        p.team.name == m.home_team.name ||
          p.team.name == m.away_team.name) ∧
    (∀ d ∈ LineupAnalyzer.analyzeMatchLineups m lineups squad,
      d.player.team.name = m.home_team.name ∨
        d.player.team.name = m.away_team.name) ∧
    (∀ d ∈ LineupAnalyzer.analyzeMatchLineups m lineups squad,
      (d.actually_starting = true ↔
        d.player.name ∈
          LineupAnalyzer.startingPlayersLookup lineups d.player.team.name)) ∧
    LineupAnalyzer.analyzeMatchLineups m lineups squad =
      LineupAnalyzer.analyzeMatchLineups m lineups squad := by
  refine ⟨?_, ?_, ?_, rfl⟩
  · rw [LineupAnalyzer.analyzeMatchLineups, List.map_map]
    exact List.map_id'' (fun _ => rfl) _
  · intro d hd
    rw [LineupAnalyzer.analyzeMatchLineups, List.mem_map] at hd
    obtain ⟨p, hp, hpd⟩ := hd
    rw [LineupAnalyzer.getPlayersForMatch, List.mem_filter] at hp
    have hteam := hp.2
    subst hpd
    simpa [LineupAnalyzer.analyzePlayerLineupStatus, Bool.or_eq_true,
      beq_iff_eq] using hteam
  · intro d hd
    rw [LineupAnalyzer.analyzeMatchLineups, List.mem_map] at hd
    obtain ⟨p, _, hpd⟩ := hd
    subst hpd
    simp [LineupAnalyzer.analyzePlayerLineupStatus, List.elem_iff]

/-- Witness for C6 at a concrete match, lineup and squad: the membership
characterisation of `actually_starting` instantiated at the discrepancy the
analyzer produces for player `Saka`. -/
theorem analyzer_one_discrepancy_witness :
    (LineupAnalyzer.analyzePlayerLineupStatus playerP sampleMatch
        (LineupAnalyzer.startingPlayersLookup [sampleLineupA]) ∈
      LineupAnalyzer.analyzeMatchLineups sampleMatch [sampleLineupA]
        sampleSquad) ∧
    ((LineupAnalyzer.analyzePlayerLineupStatus playerP sampleMatch
        (LineupAnalyzer.startingPlayersLookup
          [sampleLineupA])).actually_starting = true ↔
      (LineupAnalyzer.analyzePlayerLineupStatus playerP sampleMatch
          (LineupAnalyzer.startingPlayersLookup
            [sampleLineupA])).player.name ∈
        LineupAnalyzer.startingPlayersLookup [sampleLineupA]
          (LineupAnalyzer.analyzePlayerLineupStatus playerP sampleMatch
            (LineupAnalyzer.startingPlayersLookup
              [sampleLineupA])).player.team.name) :=
  ⟨by decide,
    (analyzer_one_discrepancy_per_relevant_player sampleMatch
        [sampleLineupA] sampleSquad).2.2.1 _ (by decide)⟩

/-! ## Cache lemmas -/

theorem lruFold_min {α : Type} (rest : List (String × Cache.CacheEntry α))
    (e : String × Cache.CacheEntry α) :
    (rest.foldl
        (fun best x =>
          if x.2.last_accessed < best.2.last_accessed then x else best) e)
      ∈ e :: rest ∧
    (rest.foldl
        (fun best x =>
          if x.2.last_accessed < best.2.last_accessed then x else best)
        e).2.last_accessed ≤ e.2.last_accessed ∧
    ∀ q ∈ rest,
      (rest.foldl
        (fun best x =>
          if x.2.last_accessed < best.2.last_accessed then x else best)
        e).2.last_accessed ≤ q.2.last_accessed := by
  induction rest generalizing e with
  | nil => exact ⟨List.mem_singleton.mpr rfl, le_refl _, by intro q hq; cases hq⟩
  | cons x xs ih =>
      simp only [List.foldl_cons]
      by_cases hx : x.2.last_accessed < e.2.last_accessed
      · rw [if_pos hx]
        obtain ⟨hmem, hle, hall⟩ := ih x
        refine ⟨List.mem_cons_of_mem e hmem,
          le_trans hle (le_of_lt hx), ?_⟩
        intro q hq
        rcases List.mem_cons.mp hq with h | h
        · subst h; exact hle
        · exact hall q h
      · rw [if_neg hx]
        obtain ⟨hmem, hle, hall⟩ := ih e
        refine ⟨?_, hle, ?_⟩
        · rcases List.mem_cons.mp hmem with h | h
          · exact List.mem_cons.mpr (Or.inl h)
          · exact List.mem_cons_of_mem e (List.mem_cons_of_mem x h)
        · intro q hq
          rcases List.mem_cons.mp hq with h | h
          · subst h; exact le_trans hle (le_of_not_lt hx)
          · exact hall q h

theorem lruPair_min {α : Type} (l : List (String × Cache.CacheEntry α))
    (hl : l ≠ []) :
    ∃ p, Cache.lruPair l = some p ∧ p ∈ l ∧
      ∀ q ∈ l, p.2.last_accessed ≤ q.2.last_accessed := by
  cases l with
  | nil => exact absurd rfl hl
  | cons e rest =>
      obtain ⟨hmem, hle, hall⟩ := lruFold_min rest e
      refine ⟨_, rfl, hmem, ?_⟩
      intro q hq
      rcases List.mem_cons.mp hq with h | h
      · subst h; exact hle
      · exact hall q h

/-! ## Circuit breaker lemmas -/

theorem recordFailures_opened_spec (now : ℚ) :
    ∀ (n : Nat) (cb : Retry.CircuitBreaker),
      cb.state = Retry.CircuitBreakerState.opened →
      (Retry.recordFailures cb now n).state =
          Retry.CircuitBreakerState.opened ∧
      (Retry.recordFailures cb now n).failure_count =
          cb.failure_count + n := by
  intro n
  induction n with
  | zero => intro cb hst; exact ⟨hst, rfl⟩
  | succ n ih =>
      intro cb hst
      obtain ⟨cfg, st, fc, sc, lft, lat⟩ := cb
      simp only at hst
      subst hst
      have hrf : Retry.recordFailure ⟨cfg, .opened, fc, sc, lft, lat⟩ now =
          ⟨cfg, .opened, fc + 1, sc, some now, lat⟩ := by
        simp [Retry.recordFailure]
      rw [Retry.recordFailures, hrf]
      obtain ⟨h1, h2⟩ := ih ⟨cfg, .opened, fc + 1, sc, some now, lat⟩ rfl
      refine ⟨h1, ?_⟩
      rw [h2]
      simp only
      omega

theorem recordFailures_closed_spec (now : ℚ) :
    ∀ (n : Nat) (cb : Retry.CircuitBreaker),
      cb.state = Retry.CircuitBreakerState.closed →
      cb.failure_count < cb.config.failure_threshold →
      ((Retry.recordFailures cb now n).state =
        if cb.failure_count + n < cb.config.failure_threshold
        then Retry.CircuitBreakerState.closed
        else Retry.CircuitBreakerState.opened) ∧
      (Retry.recordFailures cb now n).failure_count =
          cb.failure_count + n := by
  intro n
  induction n with
  | zero =>
      intro cb hst hfc
      constructor
      · rw [if_pos (by omega)]
        exact hst
      · rfl
  | succ n ih =>
      intro cb hst hfc
      obtain ⟨cfg, st, fc, sc, lft, lat⟩ := cb
      simp only at hst hfc
      subst hst
      by_cases hth : cfg.failure_threshold ≤ fc + 1
      · have hrf : Retry.recordFailure ⟨cfg, .closed, fc, sc, lft, lat⟩ now =
            ⟨cfg, .opened, fc + 1, sc, some now, lat⟩ := by
          simp [Retry.recordFailure, hth]
        rw [Retry.recordFailures, hrf]
        obtain ⟨h1, h2⟩ :=
          recordFailures_opened_spec now n ⟨cfg, .opened, fc + 1, sc, some now, lat⟩ rfl
        constructor
        · rw [h1, if_neg (by simp only; omega)]
        · rw [h2]; simp only; omega
      · have hrf : Retry.recordFailure ⟨cfg, .closed, fc, sc, lft, lat⟩ now =
            ⟨cfg, .closed, fc + 1, sc, some now, lat⟩ := by
          simp [Retry.recordFailure, hth]
        rw [Retry.recordFailures, hrf]
        obtain ⟨h1, h2⟩ :=
          ih ⟨cfg, .closed, fc + 1, sc, some now, lat⟩ rfl (by simp only; omega)
        constructor
        · rw [h1]
          simp only
          by_cases hcond : fc + 1 + n < cfg.failure_threshold
          · rw [if_pos hcond, if_pos (by omega)]
          · rw [if_neg hcond, if_neg (by omega)]
        · rw [h2]; simp only; omega

theorem recordSuccesses_closed_spec :
    ∀ (n : Nat) (cb : Retry.CircuitBreaker),
      cb.state = Retry.CircuitBreakerState.closed →
      (Retry.recordSuccesses cb n).state =
          Retry.CircuitBreakerState.closed ∧
      (Retry.recordSuccesses cb n).failure_count =
          (if n = 0 then cb.failure_count else 0) := by
  intro n
  induction n with
  | zero => intro cb hst; exact ⟨hst, rfl⟩
  | succ n ih =>
      intro cb hst
      obtain ⟨cfg, st, fc, sc, lft, lat⟩ := cb
      simp only at hst
      subst hst
      have hrs : Retry.recordSuccess ⟨cfg, .closed, fc, sc, lft, lat⟩ =
          ⟨cfg, .closed, 0, sc, lft, lat⟩ := by
        simp [Retry.recordSuccess]
      rw [Retry.recordSuccesses, hrs]
      obtain ⟨h1, h2⟩ := ih ⟨cfg, .closed, 0, sc, lft, lat⟩ rfl
      refine ⟨h1, ?_⟩
      rw [h2]
      simp only
      split <;> rfl

theorem recordSuccesses_half_open_spec :
    ∀ (n : Nat) (cb : Retry.CircuitBreaker),
      cb.state = Retry.CircuitBreakerState.half_open →
      cb.success_count < cb.config.success_threshold →
      ((Retry.recordSuccesses cb n).state =
        if cb.success_count + n < cb.config.success_threshold
        then Retry.CircuitBreakerState.half_open
        else Retry.CircuitBreakerState.closed) ∧
      (¬ (cb.success_count + n < cb.config.success_threshold) →
        (Retry.recordSuccesses cb n).failure_count = 0) := by
  intro n
  induction n with
  | zero =>
      intro cb hst hsc
      constructor
      · rw [if_pos (by omega)]
        exact hst
      · intro h; omega
  | succ n ih =>
      intro cb hst hsc
      obtain ⟨cfg, st, fc, sc, lft, lat⟩ := cb
      simp only at hst hsc
      subst hst
      by_cases hth : cfg.success_threshold ≤ sc + 1
      · have hrs : Retry.recordSuccess ⟨cfg, .half_open, fc, sc, lft, lat⟩ =
            ⟨cfg, .closed, 0, sc + 1, lft, lat⟩ := by
          simp [Retry.recordSuccess, hth]
        rw [Retry.recordSuccesses, hrs]
        obtain ⟨h1, h2⟩ :=
          recordSuccesses_closed_spec n ⟨cfg, .closed, 0, sc + 1, lft, lat⟩ rfl
        constructor
        · rw [h1, if_neg (by simp only; omega)]
        · intro _
          rw [h2]
          simp only
          split <;> rfl
      · have hrs : Retry.recordSuccess ⟨cfg, .half_open, fc, sc, lft, lat⟩ =
            ⟨cfg, .half_open, fc, sc + 1, lft, lat⟩ := by
          simp [Retry.recordSuccess, hth]
        rw [Retry.recordSuccesses, hrs]
        obtain ⟨h1, h2⟩ :=
          ih ⟨cfg, .half_open, fc, sc + 1, lft, lat⟩ rfl (by simp only; omega)
        constructor
        · rw [h1]
          simp only
          by_cases hcond : sc + 1 + n < cfg.success_threshold
          · rw [if_pos hcond, if_pos (by omega)]
          · rw [if_neg hcond, if_neg (by omega)]
        · intro hge
          have hge' : ¬ (sc + (n + 1) < cfg.success_threshold) := hge
          have h2' : ¬ (sc + 1 + n < cfg.success_threshold) →
              (Retry.recordSuccesses
                ⟨cfg, .half_open, fc, sc + 1, lft, lat⟩ n).failure_count =
                0 := h2
          exact h2' (by omega)

/-! ## Claim C2 -/

/-- C2.  The circuit breaker moves only along the allowed transitions:
from closed with a zero failure counter, the state is still closed after
fewer than `failureThreshold` consecutive recorded failures and becomes
open after exactly `failureThreshold` of them; while open with
elapsed-since-last-failure `< recoveryTimeout`, a call returns the
circuit-open error without invoking the wrapped operation; once elapsed
`≥ recoveryTimeout` the state becomes half-open and the call is allowed;
`successThreshold` consecutive successes in half-open close the circuit and
reset the failure counter, and not fewer; and any single failure in
half-open reopens it. -/
theorem circuit_breaker_state_machine (ε α : Type)
    (cfg : Retry.CircuitBreakerConfig)
    (hT : 1 ≤ cfg.failure_threshold) (hS : 1 ≤ cfg.success_threshold)
    (now t : ℚ) :
    (∀ cb : Retry.CircuitBreaker, cb.config = cfg →
      cb.state = Retry.CircuitBreakerState.closed → cb.failure_count = 0 →
      (∀ n, n < cfg.failure_threshold →
        (Retry.recordFailures cb now n).state =
          Retry.CircuitBreakerState.closed) ∧
      (Retry.recordFailures cb now cfg.failure_threshold).state =
        Retry.CircuitBreakerState.opened) ∧
    (∀ (cb : Retry.CircuitBreaker) (op : Except ε α),
      cb.state = Retry.CircuitBreakerState.opened →
      cb.last_failure_time = some t →
      now - t < cb.config.recovery_timeout →
      Retry.executeSync cb now op =
        (Retry.CBResult.circuitOpen, false,
         { cb with last_attempt_time := some now })) ∧
    (∀ cb : Retry.CircuitBreaker,
      cb.state = Retry.CircuitBreakerState.opened →
      cb.last_failure_time = some t →
      cb.config.recovery_timeout ≤ now - t →
      Retry.shouldAttempt cb now =
        (true,
         { cb with state := Retry.CircuitBreakerState.half_open,
                   success_count := 0, last_attempt_time := some now }) ∧
      ∀ op : Except ε α, (Retry.executeSync cb now op).2.1 = true) ∧
    (∀ cb : Retry.CircuitBreaker, cb.config = cfg →
      cb.state = Retry.CircuitBreakerState.half_open →
      cb.success_count = 0 →
      (∀ n, n < cfg.success_threshold →
        (Retry.recordSuccesses cb n).state =
          Retry.CircuitBreakerState.half_open) ∧
      (Retry.recordSuccesses cb cfg.success_threshold).state =
        Retry.CircuitBreakerState.closed ∧
      (Retry.recordSuccesses cb cfg.success_threshold).failure_count = 0) ∧
    (∀ cb : Retry.CircuitBreaker,
      cb.state = Retry.CircuitBreakerState.half_open →
      (Retry.recordFailure cb now).state =
        Retry.CircuitBreakerState.opened) := by
  refine ⟨?_, ?_, ?_, ?_, ?_⟩
  · intro cb hcfg hst hfc
    have hlt : cb.failure_count < cb.config.failure_threshold := by
      rw [hfc, hcfg]; omega
    constructor
    · intro n hn
      obtain ⟨h1, _⟩ := recordFailures_closed_spec now n cb hst hlt
      rw [h1, if_pos (by rw [hfc, hcfg]; omega)]
    · obtain ⟨h1, _⟩ :=
        recordFailures_closed_spec now cfg.failure_threshold cb hst hlt
      rw [h1, if_neg (by rw [hfc, hcfg]; omega)]
  · intro cb op hst hlft hrec
    obtain ⟨cfg', st, fc, sc, lft, lat⟩ := cb
    simp only at hst hlft hrec
    subst hst
    subst hlft
    have hnot : ¬ (cfg'.recovery_timeout ≤ now - t) := not_le.mpr hrec
    simp [Retry.executeSync, Retry.shouldAttempt, hnot]
  · intro cb hst hlft hrec
    obtain ⟨cfg', st, fc, sc, lft, lat⟩ := cb
    simp only at hst hlft hrec
    subst hst
    subst hlft
    constructor
    · simp [Retry.shouldAttempt, hrec]
    · intro op
      cases op <;> simp [Retry.executeSync, Retry.shouldAttempt, hrec]
  · intro cb hcfg hst hsc
    have hlt : cb.success_count < cb.config.success_threshold := by
      rw [hsc, hcfg]; omega
    refine ⟨?_, ?_, ?_⟩
    · intro n hn
      obtain ⟨h1, _⟩ := recordSuccesses_half_open_spec n cb hst hlt
      rw [h1, if_pos (by rw [hsc, hcfg]; omega)]
    · obtain ⟨h1, _⟩ :=
        recordSuccesses_half_open_spec cfg.success_threshold cb hst hlt
      rw [h1, if_neg (by rw [hsc, hcfg]; omega)]
    · obtain ⟨_, h2⟩ :=
        recordSuccesses_half_open_spec cfg.success_threshold cb hst hlt
      exact h2 (by rw [hsc, hcfg]; omega)
  · intro cb hst
    obtain ⟨cfg', st, fc, sc, lft, lat⟩ := cb
    simp only at hst
    subst hst
    simp [Retry.recordFailure]

/-- Witness for C2 at a concrete configuration (thresholds 2, recovery
timeout 60): two consecutive failures from a fresh closed breaker open it. -/
theorem circuit_breaker_state_machine_witness :
    (1 ≤ 2) ∧ (1 ≤ 2) ∧
    (Retry.recordFailures
      { config := { failure_threshold := 2, recovery_timeout := 60,
                    success_threshold := 2, timeout := 30 } } 0 2).state =
      Retry.CircuitBreakerState.opened :=
  ⟨by decide, by decide,
    ((circuit_breaker_state_machine Unit Unit
        { failure_threshold := 2, recovery_timeout := 60,
          success_threshold := 2, timeout := 30 }
        (by decide) (by decide) 0 0).1
      { config := { failure_threshold := 2, recovery_timeout := 60,
                    success_threshold := 2, timeout := 30 } }
      rfl rfl rfl).2⟩

/-! ## Retry lemmas -/

theorem retryLoop_success {ε α : Type} (sr : ε → Bool) (m : Nat)
    (op : Nat → Except ε α) (k : Nat) (v : α) :
    ∀ (fuel a : Nat) (last : Option ε),
      1 ≤ a → a ≤ k → k ≤ m → k - a < fuel →
      (∀ i, a ≤ i → i < k → ∃ e, op i = Except.error e ∧ sr e = true) →
      op k = Except.ok v →
      Retry.retryLoop sr m op fuel a last = (.ok v, k) := by
  intro fuel
  induction fuel with
  | zero => intro a last _ _ _ h4 _ _; omega
  | succ fuel ih =>
      intro a last h1 h2 h3 h4 h5 h6
      by_cases hak : a = k
      · subst hak
        simp [Retry.retryLoop, h6, show ¬ a > m by omega]
      · obtain ⟨e, hoe, hse⟩ := h5 a (le_refl a) (by omega)
        have hrec := ih (a + 1) (some e) (by omega) (by omega) h3 (by omega)
          (fun i hi1 hi2 => h5 i (by omega) hi2) h6
        simp [Retry.retryLoop, hoe, hse, show ¬ a > m by omega,
          show ¬ a = m by omega, hrec]

theorem retryLoop_exhaust {ε α : Type} (sr : ε → Bool) (m : Nat)
    (op : Nat → Except ε α) (es : Nat → ε) :
    ∀ (fuel a : Nat) (last : Option ε),
      1 ≤ a → a ≤ m → m - a < fuel →
      (∀ i, a ≤ i → i ≤ m →
        op i = Except.error (es i) ∧ sr (es i) = true) →
      Retry.retryLoop sr m op fuel a last =
        (.exhausted m (some (es m)), m) := by
  intro fuel
  induction fuel with
  | zero => intro a last _ _ h3 _; omega
  | succ fuel ih =>
      intro a last h1 h2 h3 h4
      obtain ⟨hoe, hse⟩ := h4 a (le_refl a) h2
      by_cases ham : a = m
      · subst ham
        simp [Retry.retryLoop, hoe, hse, show ¬ a > a by omega]
      · have hrec := ih (a + 1) (some (es a)) (by omega) (by omega)
          (by omega) (fun i hi1 hi2 => h4 i (by omega) hi2)
        simp [Retry.retryLoop, hoe, hse, show ¬ a > m by omega, ham, hrec]

theorem retryLoop_nonretriable {ε α : Type} (sr : ε → Bool) (m : Nat)
    (op : Nat → Except ε α) (j : Nat) (e : ε) :
    ∀ (fuel a : Nat) (last : Option ε),
      1 ≤ a → a ≤ j → j ≤ m → j - a < fuel →
      (∀ i, a ≤ i → i < j → ∃ e', op i = Except.error e' ∧ sr e' = true) →
      op j = Except.error e → sr e = false →
      Retry.retryLoop sr m op fuel a last = (.raised e, j) := by
  intro fuel
  induction fuel with
  | zero => intro a last _ _ _ h4 _ _ _; omega
  | succ fuel ih =>
      intro a last h1 h2 h3 h4 h5 h6 h7
      by_cases haj : a = j
      · subst haj
        simp [Retry.retryLoop, h6, h7, show ¬ a > m by omega]
      · obtain ⟨e', hoe, hse⟩ := h5 a (le_refl a) (by omega)
        have hrec := ih (a + 1) (some e') (by omega) (by omega) h3 (by omega)
          (fun i hi1 hi2 => h5 i (by omega) hi2) h6 h7
        simp [Retry.retryLoop, hoe, hse, show ¬ a > m by omega,
          show ¬ a = m by omega, hrec]

/-! ## Claim C3 -/

/-- C3.  Under `max_attempts = m`: an operation that fails retryably on
its first `k − 1` invocations and succeeds on the `k`-th with `k ≤ m` makes
the wrapper return the success value after exactly `k` invocations; an
operation that fails retryably on every attempt makes the wrapper raise
the distinct `RetryExhaustedError` carrying the attempt count `m` and the
last underlying error, after exactly `m` invocations; and a non-retryable
failure propagates unchanged immediately, consuming no further attempts. -/
theorem retry_wrapper_semantics {ε α : Type} (sr : ε → Bool) (m : Nat)
    (op : Nat → Except ε α) :
    (∀ (k : Nat) (v : α), 1 ≤ k → k ≤ m →
      (∀ i, 1 ≤ i → i < k → ∃ e, op i = Except.error e ∧ sr e = true) →
      op k = Except.ok v →
      Retry.retryRun sr m op = (.ok v, k)) ∧
    (∀ es : Nat → ε, 1 ≤ m →
      (∀ i, 1 ≤ i → i ≤ m →
        op i = Except.error (es i) ∧ sr (es i) = true) →
      Retry.retryRun sr m op = (.exhausted m (some (es m)), m)) ∧
    (∀ (j : Nat) (e : ε), 1 ≤ j → j ≤ m →
      (∀ i, 1 ≤ i → i < j → ∃ e', op i = Except.error e' ∧ sr e' = true) →
      op j = Except.error e → sr e = false →
      Retry.retryRun sr m op = (.raised e, j)) := by
  refine ⟨?_, ?_, ?_⟩
  · intro k v hk1 hkm hfail hok
    exact retryLoop_success sr m op k v m 1 none (le_refl 1) hk1 hkm
      (by omega) hfail hok
  · intro es hm hfail
    exact retryLoop_exhaust sr m op es m 1 none (le_refl 1) hm (by omega)
      hfail
  · intro j e hj1 hjm hfail hoe hse
    exact retryLoop_nonretriable sr m op j e m 1 none (le_refl 1) hj1 hjm
      (by omega) hfail hoe hse

/-- Witness for C3: with `max_attempts = 5` and an operation failing
retryably on attempts 1 and 2 then succeeding on attempt 3, the wrapper
returns the success value after exactly 3 invocations. -/
theorem retry_wrapper_semantics_witness :
    (1 ≤ 3) ∧ (3 ≤ 5) ∧
    Retry.retryRun (fun _ => true) 5
        (fun i => if i < 3 then Except.error i else Except.ok 99) =
      (.ok 99, 3) :=
  ⟨by decide, by decide,
    (retry_wrapper_semantics (fun _ => true) 5
        (fun i => if i < 3 then Except.error i else Except.ok 99)).1 3 99
      (by decide) (by decide)
      (fun i _ h2 => ⟨i, by simp [h2], rfl⟩)
      (by rfl)⟩

/-! ## Notification lemmas -/

theorem sendStep_spec (P : List Notification.Provider) (acc : Nat × Nat)
    (nm : String) :
    Notification.sendStep P acc nm =
      (acc.1 + (if Notification.providerSucceeded P nm then 1 else 0),
       acc.2 + (if Notification.providerFound P nm then 1 else 0)) := by
  unfold Notification.sendStep Notification.providerSucceeded
    Notification.providerFound
  rcases hf : P.find? (fun p => p.provider_name == nm) with _ | p
  · simp [hf]
  · rcases p with ⟨nm', oc⟩
    cases oc <;> simp [hf]

theorem sendLoop_counts (P : List Notification.Provider) :
    ∀ (ts : List String) (acc : Nat × Nat),
      ts.foldl (Notification.sendStep P) acc =
        (acc.1 + ts.countP (fun nm => Notification.providerSucceeded P nm),
         acc.2 + ts.countP (fun nm => Notification.providerFound P nm)) := by
  intro ts
  induction ts with
  | nil => intro acc; simp
  | cons nm ts ih =>
      intro acc
      rw [List.foldl_cons, ih, sendStep_spec, List.countP_cons,
        List.countP_cons]
      refine Prod.ext ?_ ?_
      · simp only []
        split_ifs <;> omega
      · simp only []
        split_ifs <;> omega

theorem find?_name_self (P : List Notification.Provider)
    (p : Notification.Provider)
    (hnodup : (P.map (fun q => q.provider_name)).Nodup) (hmem : p ∈ P) :
    P.find? (fun q => q.provider_name == p.provider_name) = some p := by
  induction P with
  | nil => cases hmem
  | cons q rest ih =>
      rw [List.map_cons, List.nodup_cons] at hnodup
      rcases List.mem_cons.mp hmem with h | h
      · subst h
        simp [List.find?_cons]
      · have hne : q.provider_name ≠ p.provider_name := by
          intro he
          exact hnodup.1 (he ▸ List.mem_map.mpr ⟨p, h, rfl⟩)
        rw [List.find?_cons]
        simp only [beq_false_of_ne hne]
        exact ih hnodup.2 h

theorem providerFound_of_mem_names (P : List Notification.Provider)
    (nm : String) (hnm : nm ∈ P.map (fun p => p.provider_name)) :
    Notification.providerFound P nm = true := by
  obtain ⟨p, hp, hpe⟩ := List.mem_map.mp hnm
  unfold Notification.providerFound
  exact List.find?_isSome.mpr ⟨p, hp, by simp [hpe]⟩

theorem succeeded_exists_iff (P : List Notification.Provider)
    (hnodup : (P.map (fun q => q.provider_name)).Nodup)
    (targets : List String) :
    (∃ nm ∈ targets, Notification.providerSucceeded P nm = true) ↔
      (∃ p ∈ P, p.provider_name ∈ targets ∧
        p.send_alert_outcome = Notification.SendOutcome.success) := by
  constructor
  · rintro ⟨nm, hmem, hsucc⟩
    unfold Notification.providerSucceeded at hsucc
    rcases hf : P.find? (fun p => p.provider_name == nm) with _ | p
    · rw [hf] at hsucc; cases hsucc
    · rw [hf] at hsucc
      have hpmem := List.mem_of_find?_eq_some hf
      have hpred := List.find?_some hf
      have hname : p.provider_name = nm := beq_iff_eq.mp hpred
      exact ⟨p, hpmem, hname ▸ hmem, beq_iff_eq.mp hsucc⟩
  · rintro ⟨p, hp, hname, hout⟩
    refine ⟨p.provider_name, hname, ?_⟩
    unfold Notification.providerSucceeded
    rw [find?_name_self P p hnodup hp]
    simp [hout]

/-! ## Claim C5 -/

/-- C5.  For every configured provider set (with, as in the Python dict,
distinct provider names) and every alert: an urgent or important alert is
attempted on every configured channel; an info or warning alert is
attempted only on the low-noise channels (those whose lowercased name
contains "discord" — never email), and every targeted name is such a
channel; `send_alert` returns overall success `true` iff at least one
targeted channel delivery succeeds; and a channel raising an exception is
caught and counted as a failed attempt — `send_alert` is total and never
propagates it. -/
theorem notification_routing_and_overall_success
    (P : List Notification.Provider)
    (hnodup : (P.map (fun p => p.provider_name)).Nodup)
    (u : AlertUrgency) :
    ((u = AlertUrgency.urgent ∨ u = AlertUrgency.important) →
      (Notification.sendAlert P u).2.2 = P.length) ∧
    ((u = AlertUrgency.info ∨ u = AlertUrgency.warning) →
      (Notification.sendAlert P u).2.2 =
        (P.filter fun p =>
          Notification.isDiscordName p.provider_name).length ∧
      ∀ nm ∈ Notification.providersForUrgency
          (P.map fun p => p.provider_name) u,
        Notification.isDiscordName nm = true) ∧
    ((Notification.sendAlert P u).1 = true ↔
      ∃ p ∈ P,
        p.provider_name ∈ Notification.providersForUrgency
            (P.map fun p => p.provider_name) u ∧
        p.send_alert_outcome = Notification.SendOutcome.success) := by
  have hloop := sendLoop_counts P
  refine ⟨?_, ?_, ?_⟩
  · intro hu
    have htargets : Notification.providersForUrgency
        (P.map fun p => p.provider_name) u = P.map fun p => p.provider_name := by
      unfold Notification.providersForUrgency
      rw [if_pos hu]
    unfold Notification.sendAlert
    rw [htargets]
    rcases hP : P with _ | ⟨p0, Ptl⟩
    · simp
    · rw [← hP]
      have hne : ((P.map fun p => p.provider_name).isEmpty) = false := by
        rw [hP]; rfl
      simp only [hne, Bool.false_eq_true, if_false,
        Notification.sendAlertLoop, hloop]
      have hall : (P.map fun p => p.provider_name).countP
          (fun nm => Notification.providerFound P nm) =
          (P.map fun p => p.provider_name).length :=
        List.countP_eq_length.mpr
          (fun nm hnm => providerFound_of_mem_names P nm hnm)
      simp only [hall, List.length_map, Nat.zero_add]
  · intro hu
    have hcond : ¬ (u = AlertUrgency.urgent ∨ u = AlertUrgency.important) := by
      rcases hu with h | h <;> subst h <;> simp
    have htargets : Notification.providersForUrgency
        (P.map fun p => p.provider_name) u =
        (P.map fun p => p.provider_name).filter
          (fun n => Notification.isDiscordName n) := by
      unfold Notification.providersForUrgency
      rw [if_neg hcond]
    have hlen : ((P.map fun p => p.provider_name).filter
        (fun n => Notification.isDiscordName n)).length =
        (P.filter fun p =>
          Notification.isDiscordName p.provider_name).length := by
      rw [← List.countP_eq_length_filter, ← List.countP_eq_length_filter,
        List.countP_map]
      rfl
    constructor
    · unfold Notification.sendAlert
      rw [htargets]
      rcases hemp : ((P.map fun p => p.provider_name).filter
          (fun n => Notification.isDiscordName n)).isEmpty with _ | _
      · simp only [hemp, Bool.false_eq_true, if_false,
          Notification.sendAlertLoop, hloop]
        have hall : ((P.map fun p => p.provider_name).filter
            (fun n => Notification.isDiscordName n)).countP
            (fun nm => Notification.providerFound P nm) =
            ((P.map fun p => p.provider_name).filter
              (fun n => Notification.isDiscordName n)).length := by
          refine List.countP_eq_length.mpr (fun nm hnm => ?_)
          exact providerFound_of_mem_names P nm (List.mem_of_mem_filter hnm)
        simp only [hall, Nat.zero_add]
        exact hlen
      · rw [List.isEmpty_iff] at hemp
        simp only [hemp, List.isEmpty_nil, if_true]
        rw [hemp] at hlen
        simp only [List.length_nil] at hlen
        exact hlen
    · intro nm hnm
      rw [htargets] at hnm
      exact (List.mem_filter.mp hnm).2
  · unfold Notification.sendAlert
    rcases hemp : (Notification.providersForUrgency
        (P.map fun p => p.provider_name) u).isEmpty with _ | _
    · simp only [hemp, Bool.false_eq_true, if_false,
        Notification.sendAlertLoop, hloop]
      rw [Nat.zero_add, decide_eq_true_eq]
      rw [List.countP_pos_iff]
      exact succeeded_exists_iff P hnodup _
    · rw [List.isEmpty_iff] at hemp
      simp only [hemp, List.isEmpty_nil, if_true]
      constructor
      · intro h; cases h
      · rintro ⟨p, _, hname, _⟩
        cases hname

/-- Witness for C5: two providers named "discord" and "email", the discord
one failing and the email one succeeding; an urgent alert attempts both
channels and is overall successful. -/
theorem notification_routing_witness :
    (([{ provider_name := "discord",
         send_alert_outcome := Notification.SendOutcome.raisedException },
       { provider_name := "email",
         send_alert_outcome :=
          Notification.SendOutcome.success }].map
        (fun p : Notification.Provider => p.provider_name)).Nodup) ∧
    (Notification.sendAlert
        [{ provider_name := "discord",
           send_alert_outcome := Notification.SendOutcome.raisedException },
         { provider_name := "email",
           send_alert_outcome := Notification.SendOutcome.success }]
        AlertUrgency.urgent).2.2 = 2 ∧
    (Notification.sendAlert
        [{ provider_name := "discord",
           send_alert_outcome := Notification.SendOutcome.raisedException },
         { provider_name := "email",
           send_alert_outcome := Notification.SendOutcome.success }]
        AlertUrgency.urgent).1 = true :=
  ⟨by decide,
    (notification_routing_and_overall_success
        [{ provider_name := "discord",
           send_alert_outcome := Notification.SendOutcome.raisedException },
         { provider_name := "email",
           send_alert_outcome := Notification.SendOutcome.success }]
        (by decide) AlertUrgency.urgent).1 (Or.inl rfl),
    ((notification_routing_and_overall_success
        [{ provider_name := "discord",
           send_alert_outcome := Notification.SendOutcome.raisedException },
         { provider_name := "email",
           send_alert_outcome := Notification.SendOutcome.success }]
        (by decide) AlertUrgency.urgent).2.2).mpr
      ⟨{ provider_name := "email",
         send_alert_outcome := Notification.SendOutcome.success },
       by decide, by decide, rfl⟩⟩

/-! ## Claim C7 -/

/-- C7.  Every `acquire()` first refills the token count by
elapsed-seconds × (ratePerMinute/60) capped at the bucket size and stamps
the refill time; when the refilled count is below one token, the caller is
paused for exactly `(1 − tokens) × (60/ratePerMinute)` seconds (and the
call, a total function, still grants); otherwise exactly one token is
debited and the call returns immediately with a zero pause. -/
theorem rate_limiter_acquire_spec (rl : SofaClient.RateLimiter) (now : ℚ) :
    (min rl.bucket_size
        (rl.tokens +
          (now - rl.last_update) * (rl.requests_per_minute / 60)) < 1 →
      (SofaClient.RateLimiter.acquire rl now).1 =
        (1 - min rl.bucket_size
            (rl.tokens +
              (now - rl.last_update) * (rl.requests_per_minute / 60))) *
          (60 / rl.requests_per_minute) ∧
      (SofaClient.RateLimiter.acquire rl now).2.tokens = 0) ∧
    (1 ≤ min rl.bucket_size
        (rl.tokens +
          (now - rl.last_update) * (rl.requests_per_minute / 60)) →
      (SofaClient.RateLimiter.acquire rl now).1 = 0 ∧
      (SofaClient.RateLimiter.acquire rl now).2.tokens =
        min rl.bucket_size
          (rl.tokens +
            (now - rl.last_update) * (rl.requests_per_minute / 60)) - 1) ∧
    (SofaClient.RateLimiter.acquire rl now).2.last_update = now ∧
    min rl.bucket_size
        (rl.tokens +
          (now - rl.last_update) * (rl.requests_per_minute / 60)) ≤
      rl.bucket_size := by
  by_cases h :
      min rl.bucket_size
        (rl.tokens +
          (now - rl.last_update) * (rl.requests_per_minute / 60)) < 1
  · refine ⟨fun _ => ?_, fun hge => absurd h (not_lt.mpr hge), ?_, min_le_left _ _⟩
    · constructor <;> simp [SofaClient.RateLimiter.acquire, h]
    · simp [SofaClient.RateLimiter.acquire, h]
  · refine ⟨fun hlt => absurd hlt h, fun _ => ?_, ?_, min_le_left _ _⟩
    · constructor <;> simp [SofaClient.RateLimiter.acquire, h]
    · simp [SofaClient.RateLimiter.acquire, h]

/-- Witness for C7 at a concrete limiter (60 requests/minute, bucket 10,
5 tokens, no elapsed time): at least one token is available, so no pause
happens and exactly one token is debited. -/
theorem rate_limiter_acquire_spec_witness :
    (1 ≤ min (10 : ℚ) (5 + (0 - 0) * (60 / 60))) ∧
    (SofaClient.RateLimiter.acquire ⟨60, 10, 5, 0⟩ 0).1 = 0 ∧
    (SofaClient.RateLimiter.acquire ⟨60, 10, 5, 0⟩ 0).2.tokens =
      min (10 : ℚ) (5 + (0 - 0) * (60 / 60)) - 1 :=
  ⟨by norm_num,
    (rate_limiter_acquire_spec ⟨60, 10, 5, 0⟩ 0).2.1 (by norm_num)⟩

/-! ## Claim C8 -/

/-- C8.  A lineup fetch whose upstream responds not-found (404), or
whose lineup data is absent, returns the explicit "not yet published"
result `None` instead of raising; under the retry wrapper this is a
successful return after exactly one invocation, consuming no retry
attempt; and run through a circuit breaker it records a success, so a
closed breaker stays closed with its failure counter reset to zero — the
outcome never counts as a failure toward opening the circuit. -/
theorem lineup_not_found_is_not_failure {δ ε : Type}
    (convert : δ → Option Lineup) (sr : ε → Bool) (m : Nat) (now : ℚ) :
    (SofaClient.getLineupOnce convert
        (SofaClient.UpstreamLineupOutcome.notFound404 (δ := δ) (ε := ε)) =
      Except.ok none) ∧
    (SofaClient.getLineupOnce convert
        (SofaClient.UpstreamLineupOutcome.missingSide (δ := δ) (ε := ε)) =
      Except.ok none) ∧
    (1 ≤ m →
      Retry.retryRun sr m
          (fun _ => SofaClient.getLineupOnce convert
            (SofaClient.UpstreamLineupOutcome.notFound404 (δ := δ) (ε := ε))) =
        (.ok none, 1)) ∧
    (∀ cb : Retry.CircuitBreaker,
      cb.state = Retry.CircuitBreakerState.closed →
      Retry.executeSync cb now
          (SofaClient.getLineupOnce convert
            (SofaClient.UpstreamLineupOutcome.notFound404 (δ := δ) (ε := ε))) =
        (Retry.CBResult.ok none, true,
          { cb with last_attempt_time := some now, failure_count := 0 }) ∧
      (Retry.executeSync cb now
          (SofaClient.getLineupOnce convert
            (SofaClient.UpstreamLineupOutcome.notFound404
              (δ := δ) (ε := ε)))).2.2.state =
        Retry.CircuitBreakerState.closed) := by
  refine ⟨rfl, rfl, ?_, ?_⟩
  · intro hm
    exact retryLoop_success sr m _ 1 none m 1 none (le_refl 1) (le_refl 1)
      hm (by omega) (fun i hi1 hi2 => absurd hi2 (by omega)) rfl
  · intro cb hst
    obtain ⟨cfg, st, fc, sc, lft, lat⟩ := cb
    simp only at hst
    subst hst
    constructor
    · simp [Retry.executeSync, Retry.shouldAttempt, SofaClient.getLineupOnce,
        SofaClient.fetchLineupFromApi, Retry.recordSuccess]
    · simp [Retry.executeSync, Retry.shouldAttempt, SofaClient.getLineupOnce,
        SofaClient.fetchLineupFromApi, Retry.recordSuccess]

/-- Witness for C8: with three configured retry attempts and a fresh closed
breaker, a 404 lineup fetch returns `None` after one invocation and leaves
the breaker closed. -/
theorem lineup_not_found_is_not_failure_witness :
    (1 ≤ 3) ∧
    Retry.retryRun (fun _ : Unit => true) 3
        (fun _ => SofaClient.getLineupOnce (fun _ : Unit => none)
          SofaClient.UpstreamLineupOutcome.notFound404) =
      (.ok none, 1) ∧
    (Retry.executeSync
        { config := { failure_threshold := 5, recovery_timeout := 60,
                      success_threshold := 3, timeout := 30 } } 0
        (SofaClient.getLineupOnce (fun _ : Unit => none)
          (SofaClient.UpstreamLineupOutcome.notFound404
            (δ := Unit) (ε := Unit)))).2.2.state =
      Retry.CircuitBreakerState.closed :=
  ⟨by decide,
    (lineup_not_found_is_not_failure (fun _ : Unit => none)
        (fun _ : Unit => true) 3 0).2.2.1 (by decide),
    ((lineup_not_found_is_not_failure (fun _ : Unit => none)
        (fun _ : Unit => true) 3 0).2.2.2
      { config := { failure_threshold := 5, recovery_timeout := 60,
                    success_threshold := 3, timeout := 30 } } rfl).2⟩

/-! ## Claim C4 -/

/-- C4.  After `set(key, v, ttl)` at time `now0`, a `get(key)` at time
`now` returns `v` exactly when `now` is strictly before the expiry
`now0 + ttl`, and a miss (never the expired value) once `now ≥ now0 + ttl`;
and a `set` of a new key with the cache at `max_size` evicts exactly an
entry whose `last_accessed` is minimal — never a more-recently-accessed
one. -/
theorem cache_ttl_semantics_and_lru_eviction {α : Type} :
    (∀ (c : Cache.TTLCache α) (now0 now ttl : ℚ) (key : String) (v : α),
      (Cache.get (Cache.set c now0 key v ttl) now key).1 =
        if now < now0 + ttl then some v else none) ∧
    (∀ (c : Cache.TTLCache α) (now0 ttl : ℚ) (key : String) (v : α),
      c.entries.length = c.max_size → 1 ≤ c.max_size →
      dictFind c.entries key = none →
      ∃ p, Cache.lruPair c.entries = some p ∧ p ∈ c.entries ∧
        (∀ q ∈ c.entries, p.2.last_accessed ≤ q.2.last_accessed) ∧
        (Cache.set c now0 key v ttl).entries =
          dictSet (dictDel c.entries p.1) key
            { value := v
              created_at := now0
              expires_at := now0 + ttl
              last_accessed := now0 }) := by
  constructor
  · intro c now0 now ttl key v
    have hfind : dictFind (Cache.set c now0 key v ttl).entries key =
        some { value := v, created_at := now0, expires_at := now0 + ttl,
               last_accessed := now0 } := by
      simp only [Cache.set]
      split <;> exact dictFind_dictSet_self _ _ _
    unfold Cache.get
    rw [hfind]
    by_cases h : now < now0 + ttl
    · have hexp : Cache.CacheEntry.is_expired
          (α := α)
          { value := v, created_at := now0, expires_at := now0 + ttl,
            last_accessed := now0 } now = false := by
        simp [Cache.CacheEntry.is_expired, not_le.mpr h]
      simp [hexp, h]
    · have hexp : Cache.CacheEntry.is_expired
          (α := α)
          { value := v, created_at := now0, expires_at := now0 + ttl,
            last_accessed := now0 } now = true := by
        simp [Cache.CacheEntry.is_expired, not_lt.mp h]
      simp [hexp, h]
  · intro c now0 ttl key v hlen hmax hnone
    have hne : c.entries ≠ [] := by
      intro h
      rw [h] at hlen
      simp at hlen
      omega
    obtain ⟨p, hlru, hmem, hmin⟩ := lruPair_min c.entries hne
    refine ⟨p, hlru, hmem, hmin, ?_⟩
    have hcond : c.max_size ≤ c.entries.length ∧
        (dictFind c.entries key).isNone = true := by
      exact ⟨le_of_eq hlen.symm, by rw [hnone]; rfl⟩
    simp only [Cache.set, if_pos hcond, Cache.evictLru, hlru]

/-- Witness for C4 at a concrete two-entry cache at capacity: inserting a
new key evicts an entry with minimal `last_accessed`. -/
theorem cache_ttl_semantics_and_lru_eviction_witness :
    (sampleCache.entries.length = sampleCache.max_size) ∧
    (1 ≤ sampleCache.max_size) ∧
    (dictFind sampleCache.entries "c" = none) ∧
    ∃ p, Cache.lruPair sampleCache.entries = some p ∧
      p ∈ sampleCache.entries ∧
      (∀ q ∈ sampleCache.entries,
        p.2.last_accessed ≤ q.2.last_accessed) ∧
      (Cache.set sampleCache 50 "c" 3 10).entries =
        dictSet (dictDel sampleCache.entries p.1) "c"
          { value := 3, created_at := 50, expires_at := 50 + 10,
            last_accessed := 50 } :=
  ⟨by decide, by decide, by decide,
    (cache_ttl_semantics_and_lru_eviction (α := Nat)).2 sampleCache 50 10
      "c" 3 (by decide) (by decide) (by decide)⟩

/-! ## Monitoring lemmas -/

theorem dictFind_filter_key {β : Type} (pred : String → Bool) (k : String) :
    ∀ l : List (String × β),
      dictFind (l.filter fun kv => pred kv.1) k =
        if pred k then dictFind l k else none := by
  intro l
  induction l with
  | nil =>
      simp only [List.filter_nil]
      split <;> rfl
  | cons kv rest ih =>
      rw [List.filter_cons]
      by_cases hpk : pred kv.1 = true
      · simp only [hpk, if_true]
        by_cases hk : kv.1 = k
        · subst hk
          rw [if_pos hpk]
          simp [dictFind, List.find?_cons]
        · have hb : (kv.1 == k) = false := beq_false_of_ne hk
          simp only [dictFind, List.find?_cons, hb] at ih ⊢
          exact ih
      · simp only [hpk, Bool.false_eq_true, if_false]
        rw [ih]
        by_cases hk : kv.1 = k
        · subst hk
          rw [if_neg hpk, if_neg hpk]
        · have hb : (kv.1 == k) = false := beq_false_of_ne hk
          by_cases hpkk : pred k = true
          · rw [if_pos hpkk, if_pos hpkk]
            simp [dictFind, List.find?_cons, hb]
          · rw [if_neg hpkk, if_neg hpkk]

/-- Python `dictFind_filter_key` specialised to the key-retention predicate of
`_update_monitored_matches`. -/
theorem dictFind_filter_any {β : Type} (fixtures : List Match) (k : String)
    (l : List (String × β)) :
    dictFind (l.filter fun kv => fixtures.any fun mt => mt.id == kv.1) k =
      if (fixtures.any fun mt => mt.id == k) = true then dictFind l k
      else none :=
  dictFind_filter_key (fun x => fixtures.any fun mt => mt.id == x) k l

theorem monitorFold_preserves (now : ℚ) (names : List String) :
    ∀ (fixtures : List Match)
      (acc : List (String × Monitoring.MatchMonitoringInfo))
      (k : String) (info : Monitoring.MatchMonitoringInfo),
      dictFind acc k = some info →
      dictFind (fixtures.foldl (Monitoring.monitorStep now names) acc) k =
        some info := by
  intro fixtures
  induction fixtures with
  | nil => intro acc k info h; exact h
  | cons mt rest ih =>
      intro acc k info h
      rw [List.foldl_cons]
      refine ih _ k info ?_
      unfold Monitoring.monitorStep
      by_cases hs : (dictFind acc mt.id).isSome = true
      · rw [if_pos hs]; exact h
      · rw [if_neg hs]
        have hne : mt.id ≠ k := by
          intro he
          rw [he, h] at hs
          exact hs rfl
        rw [dictFind_dictSet_ne _ _ _ _ hne]
        exact h

theorem monitorFold_creates (now : ℚ) (names : List String) :
    ∀ (fixtures : List Match)
      (acc : List (String × Monitoring.MatchMonitoringInfo)) (mt : Match),
      mt ∈ fixtures → (fixtures.map (fun m => m.id)).Nodup →
      dictFind acc mt.id = none →
      dictFind (fixtures.foldl (Monitoring.monitorStep now names) acc)
          mt.id =
        some { m := mt, squad_players := names,
               priority := Monitoring.calculateMatchPriority now mt } := by
  intro fixtures
  induction fixtures with
  | nil => intro acc mt hmem; cases hmem
  | cons m0 rest ih =>
      intro acc mt hmem hnodup hnone
      rw [List.map_cons, List.nodup_cons] at hnodup
      rw [List.foldl_cons]
      rcases List.mem_cons.mp hmem with h | h
      · subst h
        have hstep : Monitoring.monitorStep now names acc mt =
            dictSet acc mt.id
              { m := mt, squad_players := names,
                priority := Monitoring.calculateMatchPriority now mt } := by
          unfold Monitoring.monitorStep
          rw [hnone]
          rfl
        rw [hstep]
        exact monitorFold_preserves now names rest _ mt.id _
          (dictFind_dictSet_self _ _ _)
      · have hne : m0.id ≠ mt.id := by
          intro he
          exact hnodup.1 (he ▸ List.mem_map.mpr ⟨mt, h, rfl⟩)
        have hnone' : dictFind (Monitoring.monitorStep now names acc m0)
            mt.id = none := by
          unfold Monitoring.monitorStep
          by_cases hs : (dictFind acc m0.id).isSome = true
          · rw [if_pos hs]; exact hnone
          · rw [if_neg hs, dictFind_dictSet_ne _ _ _ _ hne]
            exact hnone
        exact ih _ mt h hnodup.2 hnone'

/-! ## Claim C9 -/

/-- Counterexample to C9 as stated: a match first monitored about 28 hours
before kickoff gets priority 5; on a later cycle 1000 seconds before
kickoff the reconciliation leaves the stored priority at 5, while the pure
priority function evaluated at that cycle gives 2 — the stored priority is
a stale value cached from the earlier cycle. -/
theorem watch_priority_stale_counterexample :
    ((dictFind
        (Monitoring.updateMonitoredMatches 99000 []
          (Monitoring.updateMonitoredMatches 0 [] [] [sampleMatch])
          [sampleMatch])
        "m1").map (fun i => i.priority) = some 5) ∧
    Monitoring.calculateMatchPriority 99000 sampleMatch = 2 ∧
    Monitoring.calculateMatchPriority 0 sampleMatch = 5 := by
  have hp0 : Monitoring.calculateMatchPriority 0 sampleMatch = 5 := by
    norm_num [Monitoring.calculateMatchPriority, sampleMatch]
  have hp99 : Monitoring.calculateMatchPriority 99000 sampleMatch = 2 := by
    norm_num [Monitoring.calculateMatchPriority, sampleMatch]
  have hany : ([sampleMatch].any fun mt => mt.id == "m1") = true := by
    decide
  have h1 : dictFind (Monitoring.updateMonitoredMatches 0 [] []
      [sampleMatch]) "m1" =
      some { m := sampleMatch, squad_players := [],
             priority := Monitoring.calculateMatchPriority 0 sampleMatch } := by
    simp only [Monitoring.updateMonitoredMatches]
    rw [dictFind_filter_any, if_pos hany]
    exact monitorFold_creates 0 [] [sampleMatch] [] sampleMatch
      (List.mem_singleton.mpr rfl) (by simp) rfl
  have h2 : dictFind
      (Monitoring.updateMonitoredMatches 99000 []
        (Monitoring.updateMonitoredMatches 0 [] [] [sampleMatch])
        [sampleMatch]) "m1" =
      some { m := sampleMatch, squad_players := [],
             priority := Monitoring.calculateMatchPriority 0 sampleMatch } := by
    simp only [Monitoring.updateMonitoredMatches]
    rw [dictFind_filter_any, if_pos hany]
    exact monitorFold_preserves 99000 [] [sampleMatch] _ "m1" _ h1
  refine ⟨?_, hp99, hp0⟩
  rw [h2, hp0]
  rfl

/-- C9 (amended).  A watch-list entry's priority is the pure function of
time-versus-kickoff evaluated once, when the entry is created; on later
cycles the reconciliation leaves retained entries — including their stored
priority — completely unchanged, so the stored priority is not recomputed
each cycle and can go stale. -/
theorem watch_priority_set_on_creation_and_retained
    (now : ℚ) (names : List String)
    (monitored : List (String × Monitoring.MatchMonitoringInfo))
    (fixtures : List Match) :
    (∀ mt ∈ fixtures, (fixtures.map (fun m => m.id)).Nodup →
      dictFind monitored mt.id = none →
      dictFind
          (Monitoring.updateMonitoredMatches now names monitored fixtures)
          mt.id =
        some { m := mt, squad_players := names,
               priority := Monitoring.calculateMatchPriority now mt }) ∧
    (∀ (k : String) (info : Monitoring.MatchMonitoringInfo),
      dictFind monitored k = some info →
      (fixtures.any fun mt => mt.id == k) = true →
      dictFind
          (Monitoring.updateMonitoredMatches now names monitored fixtures)
          k =
        some info) := by
  constructor
  · intro mt hmem hnodup hnone
    simp only [Monitoring.updateMonitoredMatches]
    rw [dictFind_filter_any]
    rw [if_pos (List.any_eq_true.mpr ⟨mt, hmem, by simp⟩)]
    exact monitorFold_creates now names fixtures monitored mt hmem hnodup
      hnone
  · intro k info hfound hany
    simp only [Monitoring.updateMonitoredMatches]
    rw [dictFind_filter_any]
    rw [if_pos hany]
    exact monitorFold_preserves now names fixtures monitored k info hfound

/-- Witness for C9 (amended): the entry created at time 0 for the sample
match is retained unchanged — stale priority 5 included — by a
reconciliation at time 99000. -/
theorem watch_priority_retained_witness :
    (dictFind (Monitoring.updateMonitoredMatches 0 [] [] [sampleMatch])
        "m1" =
      some { m := sampleMatch, squad_players := [], priority := 5 }) ∧
    (([sampleMatch].any fun mt => mt.id == "m1") = true) ∧
    dictFind
        (Monitoring.updateMonitoredMatches 99000 []
          (Monitoring.updateMonitoredMatches 0 [] [] [sampleMatch])
          [sampleMatch])
        "m1" =
      some { m := sampleMatch, squad_players := [], priority := 5 } := by
  have hp0 : Monitoring.calculateMatchPriority 0 sampleMatch = 5 := by
    norm_num [Monitoring.calculateMatchPriority, sampleMatch]
  have hany : ([sampleMatch].any fun mt => mt.id == "m1") = true := by
    decide
  have h1 : dictFind (Monitoring.updateMonitoredMatches 0 [] []
      [sampleMatch]) "m1" =
      some { m := sampleMatch, squad_players := [],
             priority := Monitoring.calculateMatchPriority 0 sampleMatch } := by
    simp only [Monitoring.updateMonitoredMatches]
    rw [dictFind_filter_any, if_pos hany]
    exact monitorFold_creates 0 [] [sampleMatch] [] sampleMatch
      (List.mem_singleton.mpr rfl) (by simp) rfl
  rw [hp0] at h1
  exact ⟨h1, hany,
    (watch_priority_set_on_creation_and_retained 99000 []
        (Monitoring.updateMonitoredMatches 0 [] [] [sampleMatch])
        [sampleMatch]).2 "m1"
      { m := sampleMatch, squad_players := [], priority := 5 } h1 hany⟩

/-! ## Alert summary lemmas -/

theorem summaryAux_cons (t u i f w b s c : Nat) (a : Alert)
    (rest : List Alert) (hw : a.urgency ≠ AlertUrgency.warning) :
    AlertGenerator.getAlertSummaryAux
        (AlertGenerator.mkSummary t u i f w b s c) (a :: rest) =
      AlertGenerator.getAlertSummaryAux
        (AlertGenerator.mkSummary t
          (u + if a.urgency = AlertUrgency.urgent then 1 else 0)
          (i + if a.urgency = AlertUrgency.important then 1 else 0)
          (f + if a.urgency = AlertUrgency.info then 1 else 0)
          w
          (b + if a.alert_type = AlertType.unexpected_benching then 1 else 0)
          (s + if a.alert_type = AlertType.unexpected_starting then 1 else 0)
          (c + if a.alert_type = AlertType.lineup_confirmed then 1 else 0))
        rest := by
  rcases a with ⟨pl, mt, ty, ur, msg⟩
  simp only at hw
  cases ur <;> cases ty <;>
    first
      | exact absurd rfl hw
      | rfl

theorem summaryAux_warning :
    ∀ (alerts : List Alert) (t u i f w b s c : Nat),
      (∃ a ∈ alerts, a.urgency = AlertUrgency.warning) →
      AlertGenerator.getAlertSummaryAux
          (AlertGenerator.mkSummary t u i f w b s c) alerts =
        Except.error "warning" := by
  intro alerts
  induction alerts with
  | nil =>
      intro t u i f w b s c h
      obtain ⟨a, ha, _⟩ := h
      cases ha
  | cons a rest ih =>
      intro t u i f w b s c h
      by_cases hw : a.urgency = AlertUrgency.warning
      · rcases a with ⟨pl, mt, ty, ur, msg⟩
        simp only at hw
        subst hw
        rfl
      · rw [summaryAux_cons t u i f w b s c a rest hw]
        refine ih _ _ _ _ _ _ _ _ ?_
        obtain ⟨x, hx, hxw⟩ := h
        rcases List.mem_cons.mp hx with he | he
        · exact absurd (he ▸ hxw) hw
        · exact ⟨x, he, hxw⟩

theorem summaryAux_counts :
    ∀ (alerts : List Alert) (t u i f w b s c : Nat),
      (∀ a ∈ alerts, a.urgency ≠ AlertUrgency.warning) →
      AlertGenerator.getAlertSummaryAux
          (AlertGenerator.mkSummary t u i f w b s c) alerts =
        Except.ok (AlertGenerator.mkSummary t
          (u + alerts.countP (fun a => a.urgency == AlertUrgency.urgent))
          (i + alerts.countP (fun a => a.urgency == AlertUrgency.important))
          (f + alerts.countP (fun a => a.urgency == AlertUrgency.info))
          w
          (b + alerts.countP
            (fun a => a.alert_type == AlertType.unexpected_benching))
          (s + alerts.countP
            (fun a => a.alert_type == AlertType.unexpected_starting))
          (c + alerts.countP
            (fun a => a.alert_type == AlertType.lineup_confirmed))) := by
  intro alerts
  induction alerts with
  | nil =>
      intro t u i f w b s c _
      simp [AlertGenerator.getAlertSummaryAux]
  | cons a rest ih =>
      intro t u i f w b s c hall
      have ha := hall a (List.mem_cons_self a rest)
      rw [summaryAux_cons t u i f w b s c a rest ha]
      rw [ih _ _ _ _ _ _ _ _ (fun x hx => hall x (List.mem_cons_of_mem a hx))]
      rcases a with ⟨pl, mt, ty, ur, msg⟩
      simp only at ha
      cases ur
      case warning => exact absurd rfl ha
      all_goals
        cases ty <;>
          simp [AlertGenerator.mkSummary, List.countP_cons, beq_iff_eq] <;>
          omega

theorem urgency_partition :
    ∀ alerts : List Alert,
      (∀ a ∈ alerts, a.urgency ≠ AlertUrgency.warning) →
      alerts.countP (fun a => a.urgency == AlertUrgency.urgent) +
        alerts.countP (fun a => a.urgency == AlertUrgency.important) +
        alerts.countP (fun a => a.urgency == AlertUrgency.info) =
        alerts.length := by
  intro alerts
  induction alerts with
  | nil => intro _; rfl
  | cons a rest ih =>
      intro hall
      have hrest := ih (fun x hx => hall x (List.mem_cons_of_mem a hx))
      have ha := hall a (List.mem_cons_self a rest)
      rcases a with ⟨pl, mt, ty, ur, msg⟩
      simp only at ha
      simp only [List.countP_cons, List.length_cons]
      cases ur
      case warning => exact absurd rfl ha
      all_goals simp [beq_iff_eq] <;> omega

theorem type_partition :
    ∀ alerts : List Alert,
      alerts.countP
          (fun a => a.alert_type == AlertType.unexpected_benching) +
        alerts.countP
          (fun a => a.alert_type == AlertType.unexpected_starting) +
        alerts.countP
          (fun a => a.alert_type == AlertType.lineup_confirmed) =
        alerts.length := by
  intro alerts
  induction alerts with
  | nil => rfl
  | cons a rest ih =>
      rcases a with ⟨pl, mt, ty, ur, msg⟩
      simp only [List.countP_cons, List.length_cons]
      cases ty <;> simp [beq_iff_eq] <;> omega

/-! ## Claim C10 -/

/-- C10.  For alerts whose urgencies are drawn only from
urgent/important/info, `get_alert_summary` returns a count map in which
each alert increments exactly one urgency counter and one type counter
(the three urgency counts and the three type counts each partition the
list, `total_alerts` is the length, and `warnings` stays 0); but for any
list containing an alert with urgency warning, the lookup of the urgency
value `"warning"` finds no key (the map's key is `"warnings"`), so the
helper raises a key-lookup error instead of returning a summary. -/
theorem alert_summary_counts_and_warning_keyerror (alerts : List Alert) :
    ((∀ a ∈ alerts, a.urgency ≠ AlertUrgency.warning) →
      AlertGenerator.getAlertSummary alerts =
        Except.ok (AlertGenerator.mkSummary alerts.length
          (alerts.countP (fun a => a.urgency == AlertUrgency.urgent))
          (alerts.countP (fun a => a.urgency == AlertUrgency.important))
          (alerts.countP (fun a => a.urgency == AlertUrgency.info))
          0
          (alerts.countP
            (fun a => a.alert_type == AlertType.unexpected_benching))
          (alerts.countP
            (fun a => a.alert_type == AlertType.unexpected_starting))
          (alerts.countP
            (fun a => a.alert_type == AlertType.lineup_confirmed))) ∧
      alerts.countP (fun a => a.urgency == AlertUrgency.urgent) +
        alerts.countP (fun a => a.urgency == AlertUrgency.important) +
        alerts.countP (fun a => a.urgency == AlertUrgency.info) =
        alerts.length ∧
      alerts.countP
          (fun a => a.alert_type == AlertType.unexpected_benching) +
        alerts.countP
          (fun a => a.alert_type == AlertType.unexpected_starting) +
        alerts.countP
          (fun a => a.alert_type == AlertType.lineup_confirmed) =
        alerts.length) ∧
    ((∃ a ∈ alerts, a.urgency = AlertUrgency.warning) →
      AlertGenerator.getAlertSummary alerts = Except.error "warning") := by
  constructor
  · intro hall
    have hinit : AlertGenerator.initialSummary alerts =
        AlertGenerator.mkSummary alerts.length 0 0 0 0 0 0 0 := rfl
    refine ⟨?_, ?_, ?_⟩
    · unfold AlertGenerator.getAlertSummary
      rw [hinit, summaryAux_counts alerts _ _ _ _ _ _ _ _ hall]
      simp
    · exact urgency_partition alerts hall
    · exact type_partition alerts
  · intro h
    unfold AlertGenerator.getAlertSummary
    exact summaryAux_warning alerts _ _ _ _ _ _ _ _ h

/-- Witness for C10: a single warning-urgency alert makes
`get_alert_summary` raise the key-lookup error for `"warning"`. -/
theorem alert_summary_warning_keyerror_witness :
    (∃ a ∈ [alertWarning], a.urgency = AlertUrgency.warning) ∧
    AlertGenerator.getAlertSummary [alertWarning] =
      Except.error "warning" :=
  ⟨⟨alertWarning, List.mem_singleton.mpr rfl, rfl⟩,
    (alert_summary_counts_and_warning_keyerror [alertWarning]).2
      ⟨alertWarning, List.mem_singleton.mpr rfl, rfl⟩⟩

end LineupTracker
